import Mathlib

/-!
# Window/session orchestration engine — verification development

Shallow embedding of the window-orchestration subsystem
(`src/vscode/src/vs/code/electron-main/windows.ts`, class `WindowsManager`)
together with the declaration files it relies on
(`vs/platform/windows/common/windows.ts`, `vs/platform/environment/common/environment.ts`).

Conventions of the embedding:
* TypeScript optional fields become `Option`; JavaScript truthiness of an
  optional array value is `Option.isSome` (an empty array is truthy in JS),
  truthiness of a number is `≠ 0`, truthiness of a string is `≠ ""`.
* Collaborators that live outside the given sources (filesystem `statSync`,
  `vs/base` URI helpers, the workspaces/backup main services, the electron
  `screen` API, `vs/platform/windows/node/window.ts` helpers) are modelled
  from the specification as fields of an `Env` record or as standalone
  definitions; each such definition carries a doc comment starting with
  `Modelled from the spec:`.
* The manager's mutable state (the static `WINDOWS` array, `windowsState`,
  `lastClosedWindowState`) is threaded explicitly as a `ManagerState` value;
  windows are identified by their `id` which plays the role of the object
  reference.
-/

/-- A parsed URI (`vs/base/common/uri`), reduced to the components this
subsystem reads: scheme, authority and path. -/
structure URI where
  scheme : String
  authority : String
  path : String
deriving DecidableEq

/-- `IWorkspaceIdentifier` (`vs/platform/workspaces/common/workspaces`):
an identifier plus the workspace config file location. -/
structure WorkspaceIdentifier where
  id : String
  configPath : URI
deriving DecidableEq

/-- `WindowMode` (`vs/platform/windows/electron-main/windows`). -/
inductive WindowMode
  | maximized
  | normal
  | fullscreen
deriving DecidableEq

/-- `ISingleWindowState`: the UI geometry of one window. All fields are
optional in the source. -/
structure SingleWindowState where
  width : Option Int := none
  height : Option Int := none
  x : Option Int := none
  y : Option Int := none
  mode : Option WindowMode := none
deriving DecidableEq

/-- A rectangle as returned by `BrowserWindow#getBounds()`. -/
structure WindowBounds where
  x : Int
  y : Int
  width : Int
  height : Int
deriving DecidableEq

/-- An electron `Display` reduced to its bounds. -/
structure Display where
  bounds : WindowBounds
deriving DecidableEq

/-- `IPathToOpen` (windows.ts, lines 105-121): the resolved form of one open
target.  At most one of `workspace`/`folderUri`/`fileUri` is populated; the
source's `exists` field is spelled `existsOnDisk` because `exists` is not a
legal Lean identifier. -/
structure PathToOpen where
  fileUri : Option URI := none
  lineNumber : Option Nat := none
  columnNumber : Option Nat := none
  existsOnDisk : Option Bool := none
  workspace : Option WorkspaceIdentifier := none
  folderUri : Option URI := none
  backupPath : Option String := none
  remoteAuthority : Option String := none
  label : Option String := none
deriving DecidableEq

/-- `isFolderPathToOpen` (windows.ts line 123). -/
def isFolderPathToOpen (path : PathToOpen) : Bool :=
  path.folderUri.isSome

/-- `isWorkspacePathToOpen` (windows.ts line 142). -/
def isWorkspacePathToOpen (path : PathToOpen) : Bool :=
  path.workspace.isSome

/-- `IWindowState` (windows.ts, lines 52-58): the persisted snapshot of one
window. -/
structure WindowState where
  workspace : Option WorkspaceIdentifier := none
  folderUri : Option URI := none
  backupPath : Option String := none
  remoteAuthority : Option String := none
  uiState : SingleWindowState := {}
deriving DecidableEq

/-- `IWindowsState` (windows.ts, lines 60-64). -/
structure WindowsState where
  lastActiveWindow : Option WindowState := none
  lastPluginDevelopmentHostWindow : Option WindowState := none
  openedWindows : List WindowState := []
deriving DecidableEq

/-- The claim-relevant projection of a live `ICodeWindow`.
`configExtensionDevelopmentPath` holds `window.config.extensionDevelopmentPath`
(read when a reused window inherits the extension-development options);
`lastFocusTime` backs the `getLastActiveWindow` query; `uiState` is what
`serializeWindowState()` returns and `bounds` what `getBounds()` returns. -/
structure CodeWindow where
  id : Nat
  openedWorkspace : Option WorkspaceIdentifier := none
  openedFolderUri : Option URI := none
  backupPath : Option String := none
  remoteAuthority : Option String := none
  isExtensionDevelopmentHost : Bool := false
  isExtensionTestHost : Bool := false
  configExtensionDevelopmentPath : Option (List String) := none
  lastFocusTime : Int := -1
  bounds : WindowBounds := ⟨0, 0, 0, 0⟩
  uiState : SingleWindowState := {}
deriving DecidableEq

/-- `IEmptyWindowBackupInfo` (`vs/platform/backup/node/backup`). -/
structure EmptyWindowBackupInfo where
  backupFolder : String
  remoteAuthority : Option String := none
deriving DecidableEq

/- ------------------------------------------------------------------ -/
/- PlacementEngine: ensureNoOverlap (windows.ts, lines 1589-1604)     -/
/- ------------------------------------------------------------------ -/

/-- One decrement bound used to show the `ensureNoOverlap` while loop
terminates: the number of window bounds whose top-left x is still at or
beyond the candidate x, plus the same for y.  Both coordinates only grow
(+30 per iteration), and each iteration is triggered by a bound whose x or
y equals the candidate, which leaves the corresponding count. -/
def overlapMeasure (bounds : List WindowBounds) (x y : Int) : Nat :=
  bounds.countP (fun b => decide (x ≤ b.x)) + bounds.countP (fun b => decide (y ≤ b.y))

/-- The `while` loop of `WindowsManager.ensureNoOverlap` (windows.ts lines
1598-1601): while some existing window's bounds share the candidate x OR
the candidate y coordinate, shift the candidate by +30/+30.  The decreasing
argument: both candidate coordinates only grow, and the witnessing bound
leaves the count of bounds at or beyond the candidate on its axis. -/
def shiftWhileSharedAxis (bounds : List WindowBounds) (x y : Int) : Int × Int :=
  if h : bounds.any (fun b => b.x == x || b.y == y) = true then
    shiftWhileSharedAxis bounds (x + 30) (y + 30)
  else
    (x, y)
termination_by overlapMeasure bounds x y
decreasing_by
  rcases List.any_eq_true.mp h with ⟨b, hb, hbeq⟩
  have hkey : ∀ (p q : WindowBounds → Bool), (∀ a, p a = true → q a = true) →
      ∀ l : List WindowBounds, b ∈ l → q b = true → p b = false →
        l.countP p < l.countP q := by
    intro p q hmono l hbl hqb hpb
    induction l with
    | nil => cases hbl
    | cons c t ih =>
      rcases List.mem_cons.mp hbl with hc | ht
      · subst hc
        rw [List.countP_cons, List.countP_cons, hpb, hqb]
        simp only [Bool.false_eq_true, if_false, if_true]
        have := List.countP_mono_left (l := t) (p := p) (q := q) (fun a _ => hmono a)
        omega
      · have hlt := ih ht
        rw [List.countP_cons, List.countP_cons]
        have : (if p c = true then 1 else 0) ≤ (if q c = true then 1 else 0) := by
          by_cases hpc : p c = true
          · rw [hmono c hpc]; simp [hpc]
          · simp [hpc]
        omega
  have hx30 : ∀ a : WindowBounds, decide (x + 30 ≤ a.x) = true → decide (x ≤ a.x) = true := by
    intro a ha; rw [decide_eq_true_eq] at *; omega
  have hy30 : ∀ a : WindowBounds, decide (y + 30 ≤ a.y) = true → decide (y ≤ a.y) = true := by
    intro a ha; rw [decide_eq_true_eq] at *; omega
  have hxle := List.countP_mono_left (l := bounds)
    (p := fun a => decide (x + 30 ≤ a.x)) (q := fun a => decide (x ≤ a.x)) (fun a _ => hx30 a)
  have hyle := List.countP_mono_left (l := bounds)
    (p := fun a => decide (y + 30 ≤ a.y)) (q := fun a => decide (y ≤ a.y)) (fun a _ => hy30 a)
  rcases Bool.or_eq_true_iff.mp hbeq with hbx | hby
  · have hbx' : b.x = x := beq_iff_eq.mp hbx
    have hxlt := hkey _ _ hx30 bounds hb
      (by rw [decide_eq_true_eq]; omega) (by rw [decide_eq_false_iff_not]; omega)
    unfold overlapMeasure
    omega
  · have hby' : b.y = y := beq_iff_eq.mp hby
    have hylt := hkey _ _ hy30 bounds hb
      (by rw [decide_eq_true_eq]; omega) (by rw [decide_eq_false_iff_not]; omega)
    unfold overlapMeasure
    omega

/-- The claim's account of the same loop: shift the candidate by +30/+30
while some existing window's bounds share BOTH the candidate x and the
candidate y coordinate.  Stated for comparison with `shiftWhileSharedAxis`;
the source's loop condition is the disjunction, not this conjunction. -/
def shiftWhileSharedCorner (bounds : List WindowBounds) (x y : Int) : Int × Int :=
  if h : bounds.any (fun b => b.x == x && b.y == y) = true then
    shiftWhileSharedCorner bounds (x + 30) (y + 30)
  else
    (x, y)
termination_by overlapMeasure bounds x y
decreasing_by
  rcases List.any_eq_true.mp h with ⟨b, hb, hbeq⟩
  rw [Bool.and_eq_true] at hbeq
  have hbx' : b.x = x := beq_iff_eq.mp hbeq.1
  have hkey : ∀ (p q : WindowBounds → Bool), (∀ a, p a = true → q a = true) →
      ∀ l : List WindowBounds, b ∈ l → q b = true → p b = false →
        l.countP p < l.countP q := by
    intro p q hmono l hbl hqb hpb
    induction l with
    | nil => cases hbl
    | cons c t ih =>
      rcases List.mem_cons.mp hbl with hc | ht
      · subst hc
        rw [List.countP_cons, List.countP_cons, hpb, hqb]
        simp only [Bool.false_eq_true, if_false, if_true]
        have := List.countP_mono_left (l := t) (p := p) (q := q) (fun a _ => hmono a)
        omega
      · have hlt := ih ht
        rw [List.countP_cons, List.countP_cons]
        have : (if p c = true then 1 else 0) ≤ (if q c = true then 1 else 0) := by
          by_cases hpc : p c = true
          · rw [hmono c hpc]; simp [hpc]
          · simp [hpc]
        omega
  have hx30 : ∀ a : WindowBounds, decide (x + 30 ≤ a.x) = true → decide (x ≤ a.x) = true := by
    intro a ha; rw [decide_eq_true_eq] at *; omega
  have hyle := List.countP_mono_left (l := bounds)
    (p := fun a => decide (y + 30 ≤ a.y)) (q := fun a => decide (y ≤ a.y))
    (fun a _ => by intro ha; rw [decide_eq_true_eq] at *; omega)
  have hxlt := hkey _ _ hx30 bounds hb
    (by rw [decide_eq_true_eq]; omega) (by rw [decide_eq_false_iff_not]; omega)
  unfold overlapMeasure
  omega

/-- `WindowsManager.ensureNoOverlap` (windows.ts, lines 1589-1604).
`typeof state.x === 'number' ? state.x : 0` is rendered with `Option.getD`. -/
def ensureNoOverlap (windows : List CodeWindow) (state : SingleWindowState) : SingleWindowState :=
  if windows.length == 0 then state
  else
    let x0 := state.x.getD 0
    let y0 := state.y.getD 0
    let existingWindowBounds := windows.map (·.bounds)
    let r := shiftWhileSharedAxis existingWindowBounds x0 y0
    { state with x := some r.1, y := some r.2 }

/-- `ensureNoOverlap` as the claim describes it, with the loop of
`shiftWhileSharedCorner` (repeat exactly while some window's top-left shares
both coordinates) in place of the source's disjunctive loop. -/
def ensureNoOverlapBothAxes (windows : List CodeWindow) (state : SingleWindowState) :
    SingleWindowState :=
  if windows.length == 0 then state
  else
    let x0 := state.x.getD 0
    let y0 := state.y.getD 0
    let existingWindowBounds := windows.map (·.bounds)
    let r := shiftWhileSharedCorner existingWindowBounds x0 y0
    { state with x := some r.1, y := some r.2 }

/- ------------------------------------------------------------------ -/
/- Configuration records                                              -/
/- ------------------------------------------------------------------ -/

/-- `OpenContext` (`vs/platform/windows/common/windows.ts` lines 122-141). -/
inductive OpenContext
  | CLI
  | DOCK
  | MENU
  | DIALOG
  | DESKTOP
  | API
deriving DecidableEq

/-- `IWindowOpenable` (`vs/platform/windows/common/windows.ts` lines 36-51):
exactly one of a workspace file, a folder or a file, plus an optional label. -/
inductive WindowOpenable
  | workspaceToOpen (workspaceUri : URI) (label : Option String)
  | folderToOpen (folderUri : URI) (label : Option String)
  | fileToOpen (fileUri : URI) (label : Option String)
deriving DecidableEq

/-- `isWorkspaceToOpen` (`vs/platform/windows/common/windows.ts` line 54). -/
def isWorkspaceToOpen : WindowOpenable → Bool
  | .workspaceToOpen _ _ => true
  | _ => false

/-- `isFolderToOpen` (`vs/platform/windows/common/windows.ts` line 58). -/
def isFolderToOpen : WindowOpenable → Bool
  | .folderToOpen _ _ => true
  | _ => false

/-- `isFileToOpen` (`vs/platform/windows/common/windows.ts` line 62). -/
def isFileToOpen : WindowOpenable → Bool
  | .fileToOpen _ _ => true
  | _ => false

def windowOpenableLabel : WindowOpenable → Option String
  | .workspaceToOpen _ l => l
  | .folderToOpen _ l => l
  | .fileToOpen _ l => l

/-- `WindowsManager.resourceFromURIToOpen` (windows.ts, lines 1076-1086). -/
def resourceFromURIToOpen : WindowOpenable → URI
  | .workspaceToOpen u _ => u
  | .folderToOpen u _ => u
  | .fileToOpen u _ => u

/-- The fields of `ParsedArgs` (`vs/platform/environment/common/environment.ts`)
that this subsystem reads.  `posArgs` renders the positional array `_`,
`folder_uri`/`file_uri` render `'folder-uri'`/`'file-uri'` (undefined or an
array), `disable_restore_windows` renders `'disable-restore-windows'`. -/
structure ParsedArgs where
  posArgs : List String := []
  folder_uri : Option (List String) := none
  file_uri : Option (List String) := none
  goto : Bool := false
  remote : Option String := none
  extensionDevelopmentPath : Option (List String) := none
  extensionTestsPath : Option String := none
  disable_restore_windows : Bool := false
deriving DecidableEq

/-- `IOpenConfiguration` (`vs/platform/windows/electron-main/windows`, whose
fields are fixed by their uses in windows.ts).  `userEnvTermProgram` renders
`userEnv['TERM_PROGRAM']`, the only key of `userEnv` this logic reads. -/
structure OpenConfiguration where
  context : OpenContext := .CLI
  contextWindowId : Option Nat := none
  cli : ParsedArgs := {}
  urisToOpen : Option (List WindowOpenable) := none
  userEnvTermProgram : Option String := none
  forceNewWindow : Bool := false
  forceNewTabbedWindow : Bool := false
  forceReuseWindow : Bool := false
  forceEmpty : Bool := false
  diffMode : Bool := false
  addMode : Bool := false
  gotoLineMode : Bool := false
  initialStartup : Bool := false
  noRecentEntry : Bool := false
  waitMarkerFileURI : Option URI := none
  preferNewWindow : Bool := false
deriving DecidableEq

/-- Result of `fs.statSync` in the cases `parsePath` distinguishes. -/
structure FileStat where
  isFile : Bool
  isDirectory : Bool
deriving DecidableEq

/-- Result of `workspacesMainService.resolveLocalWorkspaceSync`. -/
structure ResolvedWorkspace where
  id : String
  configPath : URI
  remoteAuthority : Option String := none
deriving DecidableEq

/-- Result of `parseLineAndColumnAware` (`vs/code/node/paths`). -/
structure LineColPath where
  path : String
  line : Option Nat := none
  column : Option Nat := none
deriving DecidableEq

/-- The manager's mutable state: the static `WindowsManager.WINDOWS` array,
the in-memory `windowsState`, and `lastClosedWindowState`.  `nextWindowId`
issues fresh window ids (standing for object identity) and `clock` issues
strictly increasing focus times. -/
structure ManagerState where
  windows : List CodeWindow := []
  windowsState : WindowsState := {}
  lastClosedWindowState : Option WindowState := none
  nextWindowId : Nat := 1
  clock : Int := 0

/-- External collaborators and user configuration, consumed through narrow
interfaces (spec §6).  Every field models code that is not part of src/:
the `window.*` settings read through `configurationService`, the electron
`screen` API, `vs/base` path/URI helpers, the backup and workspaces main
services and the filesystem.  Fields are documented with what they model. -/
structure Env where
  /-- `isMacintosh` (`vs/base/common/platform`). -/
  isMacintosh : Bool := false
  /-- `lifecycleMainService.wasRestarted`. -/
  wasRestarted : Bool := false
  /-- `windowConfig.openFoldersInNewWindow` (`none` = setting absent). -/
  openFoldersInNewWindow : Option String := none
  /-- `windowConfig.openFilesInNewWindow`. -/
  openFilesInNewWindow : Option String := none
  /-- `windowConfig.restoreWindows`. -/
  restoreWindows : Option String := none
  /-- `windowConfig.newWindowDimensions`. -/
  newWindowDimensions : Option String := none
  /-- `windowConfig.restoreFullscreen`. -/
  restoreFullscreen : Bool := false
  /-- `screen.getAllDisplays()`. -/
  displays : List Display := [⟨⟨0, 0, 1920, 1080⟩⟩]
  /-- Modelled from the spec: on macOS, the display under the pointer
  (`screen.getDisplayNearestPoint(screen.getCursorScreenPoint())`). -/
  displayNearestCursor : Display := ⟨⟨0, 0, 1920, 1080⟩⟩
  /-- Modelled from the spec: `screen.getDisplayMatching(bounds)`, the display
  best overlapping the given bounds. -/
  displayMatching : WindowBounds → Display := fun _ => ⟨⟨0, 0, 1920, 1080⟩⟩
  /-- `screen.getPrimaryDisplay()` (`none` models an absent primary). -/
  primaryDisplay : Option Display := none
  /-- `backupMainService.getFolderBackupPaths()`. -/
  folderBackupPaths : List URI := []
  /-- `backupMainService.getWorkspaceBackups()` (already in
  `IWorkspacePathToOpen` shape). -/
  workspaceBackups : List PathToOpen := []
  /-- `workspacesMainService.getUntitledWorkspacesSync()`. -/
  untitledWorkspaces : List PathToOpen := []
  /-- `backupMainService.getEmptyWindowBackupPaths()`. -/
  emptyWindowBackupPaths : List EmptyWindowBackupInfo := []
  /-- Modelled from the spec: `createAdHocWorkspace(folderUris)`
  (`workspacesMainService.createUntitledWorkspaceSync`), returning the
  identity of an ad-hoc workspace whose roots are the given folders. -/
  createUntitledWorkspace : List URI → WorkspaceIdentifier :=
    fun _ => ⟨"untitled", ⟨"untitled", "", "/untitled"⟩⟩
  /-- `workspacesMainService.resolveLocalWorkspaceSync`: classify a local file
  as a workspace config file, `none` when it is not one. -/
  resolveLocalWorkspace : URI → Option ResolvedWorkspace := fun _ => none
  /-- `fs.statSync`; `none` models the not-found exception. -/
  stat : String → Option FileStat := fun _ => none
  /-- `URI.parse` (`vs/base/common/uri`); `none` models a parse error. -/
  uriParse : String → Option URI := fun _ => none
  /-- `normalizePath` (`vs/base/common/resources`). -/
  normalizePathFn : URI → URI := id
  /-- `normalize` (`vs/base/common/path`) on a filesystem path string. -/
  normalizeFsPath : String → String := id
  /-- `parseLineAndColumnAware` (`vs/code/node/paths`): split a trailing
  `:line[:col]` suffix. -/
  parseLineAndColumn : String → LineColPath := fun s => { path := s }
  /-- `backupMainService.registerWorkspaceBackupSync`, returning the backup
  path assigned to the workspace. -/
  registerWorkspaceBackup : WorkspaceIdentifier → Option String → String := fun w _ => w.id
  /-- `backupMainService.registerFolderBackupSync`. -/
  registerFolderBackup : URI → String := fun u => u.path
  /-- `backupMainService.registerEmptyWindowBackupSync`. -/
  registerEmptyWindowBackup : Option String → Option String → String :=
    fun b _ => b.getD "empty"
  /-- `environmentService.backupHome.fsPath`. -/
  backupHome : String := "/backupHome"

/- ------------------------------------------------------------------ -/
/- External helpers implemented concretely                            -/
/- ------------------------------------------------------------------ -/

/-- `getRemoteAuthority` (`vs/platform/remote/common/remoteHosts`, not part
of src/): the URI's authority when its scheme is `vscode-remote`. -/
def getRemoteAuthority (uri : URI) : Option String :=
  if uri.scheme == "vscode-remote" then some uri.authority else none

/-- `hasWorkspaceFileExtension` (`vs/platform/workspaces/common/workspaces`,
not part of src/): the path ends in the workspace-config extension. -/
def hasWorkspaceFileExtension (path : String) : Bool :=
  ".code-workspace".data.isSuffixOf path.data

def uriToString (u : URI) : String :=
  u.scheme ++ "://" ++ u.authority ++ u.path

/-- Modelled from the spec: the workspace identity resolver
(`getWorkspaceIdentifier` of `workspacesMainService`, not part of src/)
derives a stable identity from the config path; the hash is modelled by the
rendered URI itself, which is injective. -/
def getWorkspaceIdentifier (configPath : URI) : WorkspaceIdentifier :=
  ⟨uriToString configPath, configPath⟩

/-- `URI.file` (`vs/base/common/uri`, not part of src/). -/
def URI.file (p : String) : URI :=
  { scheme := "file", authority := "", path := p }

/-- `hasTrailingPathSeparator` (`vs/base/common/resources`, not part of
src/). -/
def hasTrailingPathSeparator (uri : URI) : Bool :=
  uri.path.length > 1 && "/".data.isSuffixOf uri.path.data

/-- `removeTrailingPathSeparator` (`vs/base/common/resources`, not part of
src/). -/
def removeTrailingPathSeparator (uri : URI) : URI :=
  { uri with path := String.mk uri.path.data.dropLast }

/-- `basename` (`vs/base/common/path`, not part of src/): the last path
segment. -/
def basename (p : String) : String :=
  String.mk ((p.data.splitOn '/').getLastD p.data)

/-- Modelled from the spec: `arrays.distinct` (`vs/base/common/arrays`, not
part of src/) keeps the first occurrence for every key. -/
def distinctBy {α β : Type} [DecidableEq β] (keyFn : α → β) (xs : List α) : List α :=
  (xs.foldl
    (fun acc x => if acc.2.contains (keyFn x) then acc else (acc.1 ++ [x], keyFn x :: acc.2))
    (([] : List α), ([] : List β))).1

/-- Modelled from the spec: `WindowRegistry.lastActive` — the most recently
focused window (`vs/platform/windows/node/window.ts#getLastActiveWindow`,
not part of src/): the first window whose `lastFocusTime` equals the maximum
over all windows; `none` on an empty registry. -/
def getLastActiveWindow : List CodeWindow → Option CodeWindow
  | [] => none
  | w :: ws =>
    (w :: ws).find? (fun v =>
      v.lastFocusTime == ws.foldl (fun m u => max m u.lastFocusTime) w.lastFocusTime)

/-- `WindowsManager.getLastActiveWindowForAuthority` (windows.ts, lines
1639-1641). -/
def getLastActiveWindowForAuthority (windows : List CodeWindow)
    (remoteAuthority : Option String) : Option CodeWindow :=
  getLastActiveWindow (windows.filter (fun w => w.remoteAuthority == remoteAuthority))

/-- Modelled from the spec: `WindowRegistry.findByWorkspace`
(`vs/platform/windows/node/window.ts#findWindowOnWorkspace`, not part of
src/): the first live window opened on the same workspace identity. -/
def findWindowOnWorkspace (windows : List CodeWindow) (workspace : WorkspaceIdentifier) :
    Option CodeWindow :=
  windows.find? (fun w =>
    match w.openedWorkspace with
    | some ows => ows.id == workspace.id
    | none => false)

/-- Modelled from the spec: `WindowRegistry.findByFolder` — comparison is by
normalized-URI equality (`findWindowOnWorkspace` applied to a folder URI in
the source; not part of src/). -/
def findWindowOnFolderUri (windows : List CodeWindow) (folderUri : URI) : Option CodeWindow :=
  windows.find? (fun w => w.openedFolderUri == some folderUri)

/-- Modelled from the spec: the "best window for file" heuristic (spec §4.5
step 5c; `vs/platform/windows/node/window.ts#findBestWindowOrFolderForFile`
is not part of src/).  Among the already authority-filtered windows prefer
one whose opened folder contains the file (closest ancestor, longest folder
path, wins); otherwise the most recently active window when files are not
forced into a new window; otherwise none. -/
def findBestWindowOrFolderForFile (windows : List CodeWindow) (newWindow : Bool)
    (fileUri : Option URI) : Option CodeWindow :=
  let containing : List CodeWindow := match fileUri with
    | some f => windows.filter (fun (w : CodeWindow) =>
        match w.openedFolderUri with
        | some folder =>
            folder.scheme == f.scheme && folder.authority == f.authority &&
              String.isPrefixOf (folder.path ++ "/") f.path
        | none => false)
    | none => []
  let best := containing.foldl
    (fun (acc : Option CodeWindow) (w : CodeWindow) =>
      match acc with
      | some b =>
          if ((w.openedFolderUri.map (fun (u : URI) => u.path.length)).getD 0 >
              (b.openedFolderUri.map (fun (u : URI) => u.path.length)).getD 0) then some w else acc
      | none => some w) (none : Option CodeWindow)
  match best with
  | some w => some w
  | none => if !newWindow then getLastActiveWindow windows else none

/- ------------------------------------------------------------------ -/
/- PathResolver (windows.ts, lines 1006-1183)                         -/
/- ------------------------------------------------------------------ -/

/-- JS `String.prototype.charCodeAt`: `none` models `NaN`. -/
def jsCharCodeAt (s : String) (i : Nat) : Option Nat :=
  (s.toList.get? i).map Char.toNat

/-- The make-absolute step of `WindowsManager.parsePath` under a CLI remote
authority (windows.ts, lines 1109-1116).  The drive letter test renders the
source expression
`isWindowsDriveLetter(first) && anyPath.charCodeAt(anyPath.charCodeAt(1)) === CharCode.Colon`
with its double `charCodeAt` kept as written (JS coerces a `NaN` index to 0);
`toSlashes` replaces backslashes by slashes. -/
def makeRemoteAbsolute (anyPath : String) : String :=
  if jsCharCodeAt anyPath 0 == some 47 then anyPath
  else
    let isDrive : Bool := match jsCharCodeAt anyPath 0 with
      | some c => (65 ≤ c && c ≤ 90) || (97 ≤ c && c ≤ 122)
      | none => false
    let innerIdx : Nat := (jsCharCodeAt anyPath 1).getD 0
    let slashified : String :=
      if isDrive && jsCharCodeAt anyPath innerIdx == some 58 then
        String.map (fun ch => if ch = '\\' then '/' else ch) anyPath
      else anyPath
    "/" ++ slashified

/-- `IPathParseOptions` (windows.ts, lines 92-96). -/
structure PathParseOptions where
  ignoreFileNotFound : Bool := false
  gotoLineMode : Bool := false
  remoteAuthority : Option String := none
deriving DecidableEq

/-- `WindowsManager.parsePath` (windows.ts, lines 1088-1183).  The
`removeFromRecentlyOpened` side effect in the catch branch is dropped (it
does not influence the returned value). -/
def parsePath (env : Env) (anyPath : String) (options : PathParseOptions)
    (forceOpenWorkspaceAsFile : Bool) : Option PathToOpen :=
  if anyPath == "" then none
  else
    let parsed : LineColPath :=
      if options.gotoLineMode then env.parseLineAndColumn anyPath
      else { path := anyPath }
    match options.remoteAuthority with
    | some remoteAuthority =>
      -- assume it's a folder or workspace file
      let absPath := makeRemoteAbsolute parsed.path
      let uri : URI := { scheme := "vscode-remote", authority := remoteAuthority, path := absPath }
      if hasWorkspaceFileExtension absPath then
        if forceOpenWorkspaceAsFile then
          some { fileUri := some uri, remoteAuthority := some remoteAuthority }
        else
          some { workspace := some (getWorkspaceIdentifier uri),
                 remoteAuthority := some remoteAuthority }
      else
        some { folderUri := some uri, remoteAuthority := some remoteAuthority }
    | none =>
      let candidate := env.normalizeFsPath parsed.path
      match env.stat candidate with
      | some candidateStat =>
        if candidateStat.isFile then
          if !forceOpenWorkspaceAsFile then
            match env.resolveLocalWorkspace (URI.file candidate) with
            | some workspace =>
                some { workspace := some { id := workspace.id, configPath := workspace.configPath },
                       remoteAuthority := workspace.remoteAuthority, existsOnDisk := some true }
            | none =>
                some { fileUri := some (URI.file candidate), lineNumber := parsed.line,
                       columnNumber := parsed.column, remoteAuthority := none,
                       existsOnDisk := some true }
          else
            some { fileUri := some (URI.file candidate), lineNumber := parsed.line,
                   columnNumber := parsed.column, remoteAuthority := none,
                   existsOnDisk := some true }
        else if candidateStat.isDirectory then
          some { folderUri := some (URI.file candidate), remoteAuthority := none,
                 existsOnDisk := some true }
        else
          none
      | none =>
        if options.ignoreFileNotFound then
          some { fileUri := some (URI.file candidate), remoteAuthority := none,
                 existsOnDisk := some false }
        else none

/-- `WindowsManager.parseUri` (windows.ts, lines 1022-1074).  `uri.fsPath` is
modelled by `uri.path`. -/
def parseUri (env : Env) (toOpen : WindowOpenable) (options : PathParseOptions) :
    Option PathToOpen :=
  let uri := resourceFromURIToOpen toOpen
  if uri.scheme == "file" then
    parsePath env uri.path options (isFileToOpen toOpen)
  else
    -- open remote if either specified in the cli or if it's a remotehost URI
    let remoteAuthority := match options.remoteAuthority with
      | some r => some r
      | none => getRemoteAuthority uri
    let uri1 := env.normalizePathFn uri
    let uri2 := if hasTrailingPathSeparator uri1 then removeTrailingPathSeparator uri1 else uri1
    if isFileToOpen toOpen then
      if options.gotoLineMode then
        let parsedPath := env.parseLineAndColumn uri2.path
        some { fileUri := some { uri2 with path := parsedPath.path },
               lineNumber := parsedPath.line, columnNumber := parsedPath.column,
               remoteAuthority := remoteAuthority }
      else
        some { fileUri := some uri2, remoteAuthority := remoteAuthority }
    else if isWorkspaceToOpen toOpen then
      some { workspace := some (getWorkspaceIdentifier uri2), remoteAuthority := remoteAuthority }
    else
      some { folderUri := some uri2, remoteAuthority := remoteAuthority }

/-- `WindowsManager.argToUri` (windows.ts, lines 1006-1020); the `URI.parse`
exception is `Env.uriParse` returning `none`. -/
def argToUri (env : Env) (arg : String) : Option URI :=
  match env.uriParse arg with
  | some uri => if uri.scheme == "" then none else some uri
  | none => none

/-- One iteration of the loop of `WindowsManager.doExtractPathsFromAPI`
(windows.ts, lines 855-885): a resolved target is appended with its label, a
target that fails to resolve is dropped (the message box shown for it is
modelled by counting the dropped targets in the second component). -/
def doExtractPathsFromAPIStep (env : Env) (openConfig : OpenConfiguration)
    (acc : List PathToOpen × Nat) (pathToOpen : WindowOpenable) : List PathToOpen × Nat :=
  match parseUri env pathToOpen { gotoLineMode := openConfig.gotoLineMode } with
  | some path => (acc.1 ++ [{ path with label := windowOpenableLabel pathToOpen }], acc.2)
  | none => (acc.1, acc.2 + 1)

/-- `WindowsManager.doExtractPathsFromAPI` (windows.ts, lines 850-887). -/
def doExtractPathsFromAPI (env : Env) (openConfig : OpenConfiguration) :
    List PathToOpen × Nat :=
  (openConfig.urisToOpen.getD []).foldl (doExtractPathsFromAPIStep env openConfig) ([], 0)

/-- `WindowsManager.doExtractPathsFromCLI` (windows.ts, lines 889-937). -/
def doExtractPathsFromCLI (env : Env) (cli : ParsedArgs) : List PathToOpen :=
  let parseOptions : PathParseOptions :=
    { ignoreFileNotFound := true, gotoLineMode := cli.goto, remoteAuthority := cli.remote }
  -- folder uris
  let pathsToOpen1 := (cli.folder_uri.getD []).foldl
    (fun (acc : List PathToOpen) f =>
      match argToUri env f with
      | some folderUri =>
        match parseUri env (.folderToOpen folderUri none) parseOptions with
        | some path => acc ++ [path]
        | none => acc
      | none => acc) []
  -- file uris
  let pathsToOpen2 := (cli.file_uri.getD []).foldl
    (fun (acc : List PathToOpen) f =>
      match argToUri env f with
      | some fileUri =>
        match parseUri env
            (if hasWorkspaceFileExtension f then .workspaceToOpen fileUri none
             else .fileToOpen fileUri none) parseOptions with
        | some path => acc ++ [path]
        | none => acc
      | none => acc) pathsToOpen1
  -- folder or file paths
  let pathsToOpen3 := cli.posArgs.foldl
    (fun (acc : List PathToOpen) cliArg =>
      match parsePath env cliArg parseOptions false with
      | some path => acc ++ [path]
      | none => acc) pathsToOpen2
  if pathsToOpen3.length != 0 then pathsToOpen3
  else [{}]  -- No path provided, return empty to open empty

/-- `WindowsManager.getRestoreWindowsSetting` (windows.ts, lines 990-1004). -/
def getRestoreWindowsSetting (env : Env) : String :=
  if env.wasRestarted then "all"  -- always reopen all windows when an update was applied
  else
    let restoreWindows := match env.restoreWindows with
      | some s => if s == "" then "one" else s
      | none => "one"
    if restoreWindows == "all" || restoreWindows == "folders" ||
        restoreWindows == "one" || restoreWindows == "none" then restoreWindows
    else "one"

/-- `WindowsManager.doGetWindowsFromLastSession` (windows.ts, lines 939-988). -/
def doGetWindowsFromLastSession (env : Env) (st : ManagerState) : List PathToOpen :=
  let restoreWindows := getRestoreWindowsSetting env
  if restoreWindows == "none" then [{}]
  else
    let openedWindows : List WindowState :=
      (if restoreWindows != "one" then st.windowsState.openedWindows else []) ++
      (match st.windowsState.lastActiveWindow with
       | some w => [w]
       | none => [])
    let windowsToOpen := openedWindows.foldl
      (fun (acc : List PathToOpen) openedWindow =>
        match openedWindow.workspace with
        | some workspace =>  -- Workspaces
          match parseUri env (.workspaceToOpen workspace.configPath none)
              { remoteAuthority := openedWindow.remoteAuthority } with
          | some pathToOpen =>
            if pathToOpen.workspace.isSome then acc ++ [pathToOpen] else acc
          | none => acc
        | none =>
          match openedWindow.folderUri with
          | some folderUri =>  -- Folders
            match parseUri env (.folderToOpen folderUri none)
                { remoteAuthority := openedWindow.remoteAuthority } with
            | some pathToOpen =>
              if pathToOpen.folderUri.isSome then acc ++ [pathToOpen] else acc
            | none => acc
          | none =>
            -- Local windows that were empty
            if restoreWindows != "folders" && openedWindow.backupPath.isSome &&
                openedWindow.remoteAuthority.isNone then
              acc ++ [{ backupPath := openedWindow.backupPath,
                        remoteAuthority := openedWindow.remoteAuthority }]
            else acc) []
    if windowsToOpen.length > 0 then windowsToOpen
    else [{}]  -- Always fallback to empty window

/-- The extraction stage of `WindowsManager.getPathsToOpen` (windows.ts,
lines 803-827): API targets, force-empty, CLI targets or the previous
session, together with the `isCommandLineOrAPICall` flag. -/
def extractWindowsToOpen (env : Env) (st : ManagerState) (openConfig : OpenConfiguration) :
    List PathToOpen × Bool :=
  match openConfig.urisToOpen with
  | some uris =>
    if uris.length > 0 then ((doExtractPathsFromAPI env openConfig).1, true)
    else if openConfig.forceEmpty then ([{}], false)
    else if openConfig.cli.posArgs.length != 0 || openConfig.cli.folder_uri.isSome ||
        openConfig.cli.file_uri.isSome then (doExtractPathsFromCLI env openConfig.cli, true)
    else (doGetWindowsFromLastSession env st, false)
  | none =>
    if openConfig.forceEmpty then ([{}], false)
    else if openConfig.cli.posArgs.length != 0 || openConfig.cli.folder_uri.isSome ||
        openConfig.cli.file_uri.isSome then (doExtractPathsFromCLI env openConfig.cli, true)
    else (doGetWindowsFromLastSession env st, false)

/-- The multi-folder coalescing stage of `WindowsManager.getPathsToOpen`
(windows.ts, lines 829-845): convert multiple folders into one untitled
workspace when all share the same remote authority. -/
def coalesceFoldersIntoWorkspace (env : Env) (windowsToOpen : List PathToOpen) :
    List PathToOpen :=
  let foldersToOpen := windowsToOpen.filter (fun path => path.folderUri.isSome)
  if foldersToOpen.length > 1 then
    let remoteAuthority := (foldersToOpen.headD {}).remoteAuthority
    if foldersToOpen.all (fun f => f.remoteAuthority == remoteAuthority) then
      -- only if all folder have the same authority
      let workspace := env.createUntitledWorkspace (foldersToOpen.filterMap (·.folderUri))
      -- Add workspace and remove folders thereby
      (windowsToOpen ++
          [({ workspace := some workspace, remoteAuthority := remoteAuthority } : PathToOpen)]).filter
        (fun path => path.folderUri.isNone)
    else windowsToOpen
  else windowsToOpen

/-- `WindowsManager.getPathsToOpen` (windows.ts, lines 803-848). -/
def getPathsToOpen (env : Env) (st : ManagerState) (openConfig : OpenConfiguration) :
    List PathToOpen :=
  let extracted := extractWindowsToOpen env st openConfig
  if !openConfig.addMode && extracted.2 then coalesceFoldersIntoWorkspace env extracted.1
  else extracted.1

/- ------------------------------------------------------------------ -/
/- Orchestrator: open() support types and small steps                 -/
/- ------------------------------------------------------------------ -/

/-- `IPathsToWaitFor` payload built in `WindowsManager.open` (windows.ts,
lines 427-430). -/
structure WaitFiles where
  paths : List PathToOpen
  waitMarkerFileUri : URI
deriving DecidableEq

/-- `IFileInputs` (windows.ts, lines 98-103). -/
structure FileInputs where
  filesToOpenOrCreate : List PathToOpen := []
  filesToDiff : List PathToOpen := []
  filesToWait : Option WaitFiles := none
  remoteAuthority : Option String := none
deriving DecidableEq

/-- The fields of `IWindowConfiguration` built by
`WindowsManager.openInBrowserWindow` (windows.ts, lines 1334-1360) that this
subsystem reads back (extension development/test paths come in through the
inherited CLI properties). -/
structure WindowConfiguration where
  extensionDevelopmentPath : Option (List String) := none
  extensionTestsPath : Option String := none
  workspace : Option WorkspaceIdentifier := none
  folderUri : Option URI := none
  remoteAuthority : Option String := none
  filesToOpenOrCreate : List PathToOpen := []
  filesToDiff : List PathToOpen := []
  filesToWait : Option WaitFiles := none
  backupPath : Option String := none
deriving DecidableEq

/-- The observable per-window effects of one `open()` pass: a full window
load (`window.load(configuration)`), a `vscode:openFiles` send to an
existing window, or a `vscode:addFolders` send to an existing window. -/
inductive Instr
  | loadWindow (windowId : Nat) (configuration : WindowConfiguration)
  | openFilesInExistingWindow (windowId : Nat) (fileInputs : Option FileInputs)
  | addFoldersToExistingWindow (windowId : Nat) (foldersToAdd : List URI)
deriving DecidableEq

/-- The result of the grouping loop at the start of `WindowsManager.open`
(windows.ts, lines 391-418). -/
structure ClassifiedPaths where
  foldersToAdd : List PathToOpen := []
  foldersToOpen : List PathToOpen := []
  workspacesToOpen : List PathToOpen := []
  emptyToRestore : List EmptyWindowBackupInfo := []
  emptyToOpen : Nat := 0
  fileInputs : Option FileInputs := none
deriving DecidableEq

/-- The grouping loop of `WindowsManager.open` (windows.ts, lines 391-418):
with `--add`, folders become folders-to-add; otherwise folders, workspaces,
files, empty windows with a backup and plain empty windows are separated. -/
def classifyPathsStep (openConfig : OpenConfiguration) (acc : ClassifiedPaths)
    (path : PathToOpen) : ClassifiedPaths :=
  if isFolderPathToOpen path then
    if openConfig.addMode then { acc with foldersToAdd := acc.foldersToAdd ++ [path] }
    else { acc with foldersToOpen := acc.foldersToOpen ++ [path] }
  else if isWorkspacePathToOpen path then
    { acc with workspacesToOpen := acc.workspacesToOpen ++ [path] }
  else if path.fileUri.isSome then
    match acc.fileInputs with
    | none =>
      let fi : FileInputs :=
        { filesToOpenOrCreate := [path], filesToDiff := [],
          remoteAuthority := path.remoteAuthority }
      { acc with fileInputs := some fi }
    | some fi =>
      let fi2 : FileInputs :=
        { fi with filesToOpenOrCreate := fi.filesToOpenOrCreate ++ [path] }
      { acc with fileInputs := some fi2 }
  else if path.backupPath.isSome then
    let info : EmptyWindowBackupInfo :=
      { backupFolder := basename (path.backupPath.getD ""),
        remoteAuthority := path.remoteAuthority }
    { acc with emptyToRestore := acc.emptyToRestore ++ [info] }
  else { acc with emptyToOpen := acc.emptyToOpen + 1 }

def classifyPaths (openConfig : OpenConfiguration) (pathsToOpen : List PathToOpen) :
    ClassifiedPaths :=
  pathsToOpen.foldl (classifyPathsStep openConfig) {}

/-- The `--diff` transformation of `WindowsManager.open` (windows.ts, lines
420-425): with exactly two collected files, they become the diff pair and
the open/create list empties. -/
def applyDiffMode (diffMode : Bool) : Option FileInputs → Option FileInputs
  | some fileInputs =>
    if diffMode && fileInputs.filesToOpenOrCreate.length == 2 then
      some
        { fileInputs with
          filesToDiff := fileInputs.filesToOpenOrCreate,
          filesToOpenOrCreate := [] }
    else some fileInputs
  | none => none

/-- The `--wait` transformation of `WindowsManager.open` (windows.ts, lines
427-430). -/
def applyWaitMarker (waitMarkerFileURI : Option URI) : Option FileInputs → Option FileInputs
  | some fileInputs =>
    match waitMarkerFileURI with
    | some uri =>
      let waitFiles : WaitFiles :=
        { paths := fileInputs.filesToDiff ++ fileInputs.filesToOpenOrCreate,
          waitMarkerFileUri := uri }
      some { fileInputs with filesToWait := some waitFiles }
    | none => some fileInputs
  | none => none

/-- `WindowsManager.shouldOpenNewWindow` (windows.ts, lines 1185-1225):
`(openFolderInNewWindow, openFilesInNewWindow)`. -/
def shouldOpenNewWindow (env : Env) (openConfig : OpenConfiguration) : Bool × Bool :=
  let openFolderInNewWindowConfig := match env.openFoldersInNewWindow with
    | some s => if s == "" then "default" else s
    | none => "default"
  let openFilesInNewWindowConfig := match env.openFilesInNewWindow with
    | some s => if s == "" then "off" else s
    | none => "off"
  let openFolderInNewWindow0 :=
    (openConfig.preferNewWindow || openConfig.forceNewWindow) && !openConfig.forceReuseWindow
  let openFolderInNewWindow :=
    if !openConfig.forceNewWindow && !openConfig.forceReuseWindow &&
        (openFolderInNewWindowConfig == "on" || openFolderInNewWindowConfig == "off") then
      openFolderInNewWindowConfig == "on"
    else openFolderInNewWindow0
  let openFilesInNewWindow :=
    if openConfig.forceNewWindow || openConfig.forceReuseWindow then
      openConfig.forceNewWindow && !openConfig.forceReuseWindow
    else
      let byContext :=
        if env.isMacintosh then openConfig.context == OpenContext.DOCK
        else !(openConfig.context == OpenContext.DIALOG) &&
          !(openConfig.context == OpenContext.MENU) &&
          !(openConfig.userEnvTermProgram == some "vscode")
      if openConfig.cli.extensionDevelopmentPath.isNone &&
          (openFilesInNewWindowConfig == "on" || openFilesInNewWindowConfig == "off") then
        openFilesInNewWindowConfig == "on"
      else byContext
  (openFolderInNewWindow, openFilesInNewWindow)

/-- `WindowsManager.validateOpenConfig` (windows.ts, lines 521-529): addMode
is only kept when this is not the initial startup and an active window
exists. -/
def validateOpenConfig (st : ManagerState) (config : OpenConfiguration) : OpenConfiguration :=
  if config.addMode && (config.initialStartup || (getLastActiveWindow st.windows).isNone) then
    { config with addMode := false }
  else config

/-- `WindowsManager.getWindowById` (windows.ts, lines 1699-1702). -/
def getWindowById (st : ManagerState) (windowId : Nat) : Option CodeWindow :=
  (st.windows.filter (fun w => w.id == windowId)).head?

def updateWindow (st : ManagerState) (windowId : Nat) (f : CodeWindow → CodeWindow) :
    ManagerState :=
  { st with windows := st.windows.map (fun w => if w.id == windowId then f w else w) }

/-- `window.focus()`: the focused window gets the newest focus time. -/
def focusWindow (st : ManagerState) (windowId : Nat) : ManagerState :=
  { updateWindow st windowId (fun w => { w with lastFocusTime := st.clock }) with
    clock := st.clock + 1 }

/- ------------------------------------------------------------------ -/
/- PlacementEngine: getNewWindowState (windows.ts, lines 1475-1587)   -/
/- ------------------------------------------------------------------ -/

/-- Modelled from the spec: `defaultWindowState`
(`vs/code/electron-main/window.ts`, not part of src/): the default window
size in normal mode, position unset. -/
def defaultWindowState : SingleWindowState :=
  { width := some 1024, height := some 768, mode := some WindowMode.normal }

/-- The display-selection part of `WindowsManager.getNewWindowState`
(windows.ts, lines 1522-1549): single display, else cursor display on mac,
else the display of the last active window, else primary/first. -/
def pickDisplay (env : Env) (lastActive : Option CodeWindow) : Display :=
  match env.displays with
  | [d] => d
  | _ =>
    if env.isMacintosh then env.displayNearestCursor
    else
      match lastActive with
      | some w => env.displayMatching w.bounds
      | none => env.primaryDisplay.getD (env.displays.headD ⟨⟨0, 0, 0, 0⟩⟩)

/-- `Math.round(a + b/2 - c/2)` on integers: round-half-up of
`(2a + b - c) / 2`. -/
def roundHalfOfSum (a b c : Int) : Int :=
  (2 * a + b - c + 1).fdiv 2

/-- `WindowsManager.getNewWindowState` (windows.ts, lines 1475-1587):
the stored-state lookups, then the default centered geometry with the
`newWindowDimensions` overrides and overlap avoidance.  Returns the state
together with the `hasDefaultState` flag of `INewWindowState`. -/
def getNewWindowState (env : Env) (st : ManagerState) (configuration : WindowConfiguration) :
    SingleWindowState × Bool :=
  let lastActive := getLastActiveWindow st.windows
  -- extension development host window: load from stored settings if any
  let fromDev : Option SingleWindowState :=
    if configuration.extensionDevelopmentPath.isSome then
      st.windowsState.lastPluginDevelopmentHostWindow.map (fun w => w.uiState)
    else none
  -- known workspace: load from stored settings
  let fromWorkspace : Option SingleWindowState :=
    match configuration.workspace with
    | some workspace =>
      ((st.windowsState.openedWindows.filter
          (fun o => o.workspace.any (fun w => w.id == workspace.id))).map
        (fun o => o.uiState)).head?
    | none => none
  -- known folder, else empty window with backup: load from stored settings
  let fromFolderOrBackup : Option SingleWindowState :=
    match configuration.folderUri with
    | some folderUri =>
      ((st.windowsState.openedWindows.filter
          (fun o => o.folderUri == some folderUri)).map (fun o => o.uiState)).head?
    | none =>
      match configuration.backupPath with
      | some backupPath =>
        ((st.windowsState.openedWindows.filter
            (fun o => o.backupPath == some backupPath)).map (fun o => o.uiState)).head?
      | none => none
  -- first window
  let lastActiveState : Option WindowState := match st.lastClosedWindowState with
    | some s => some s
    | none => st.windowsState.lastActiveWindow
  let fromFirstWindow : Option SingleWindowState :=
    if lastActive.isNone then lastActiveState.map (fun s => s.uiState) else none
  let storedState : Option SingleWindowState :=
    if configuration.extensionTestsPath.isSome then none
    else
      match fromDev with
      | some s => some s
      | none =>
        match fromWorkspace with
        | some s => some s
        | none =>
          match fromFolderOrBackup with
          | some s => some s
          | none => fromFirstWindow
  match storedState with
  | some s => (s, false)
  | none =>
    -- no stored settings: come up with the default centered state
    let displayToUse := pickDisplay env lastActive
    let state0 := defaultWindowState
    let state1 := { state0 with
      x := some (roundHalfOfSum displayToUse.bounds.x displayToUse.bounds.width
        (state0.width.getD 0))
      y := some (roundHalfOfSum displayToUse.bounds.y displayToUse.bounds.height
        (state0.height.getD 0)) }
    if env.newWindowDimensions == some "maximized" then
      ({ state1 with mode := some WindowMode.maximized }, true)
    else if env.newWindowDimensions == some "fullscreen" then
      ({ state1 with mode := some WindowMode.fullscreen }, true)
    else if env.newWindowDimensions == some "inherit" && lastActive.isSome then
      match lastActive with
      | some la =>
        if la.uiState.mode == some WindowMode.fullscreen then
          ({ state1 with mode := some WindowMode.fullscreen }, true)  -- only take mode
        else (la.uiState, true)
      | none => (ensureNoOverlap st.windows state1, true)
    else (ensureNoOverlap st.windows state1, true)

/- ------------------------------------------------------------------ -/
/- Orchestrator: window creation and reuse                            -/
/- ------------------------------------------------------------------ -/

/-- `IOpenBrowserWindowOptions` (windows.ts, lines 72-90).  `cli` carries the
fields `openInBrowserWindow` copies into the window configuration;
`windowToUse` is a window id (the object reference in the source). -/
structure OpenBrowserWindowOptions where
  cli : ParsedArgs := {}
  workspace : Option WorkspaceIdentifier := none
  folderUri : Option URI := none
  remoteAuthority : Option String := none
  initialStartup : Bool := false
  fileInputs : Option FileInputs := none
  forceNewWindow : Bool := false
  forceNewTabbedWindow : Bool := false
  windowToUse : Option Nat := none
  emptyWindowBackupInfo : Option EmptyWindowBackupInfo := none
deriving DecidableEq

/-- `WindowsManager.doOpenInBrowserWindow` (windows.ts, lines 1454-1473):
register the window for backups (unless extension development) and load the
configuration; the load updates the live window record (the `CodeWindow`
takes over workspace/folder/backup/authority and the extension-development
flags from its new configuration) and emits the load instruction. -/
def doOpenInBrowserWindow (env : Env) (st : ManagerState) (windowId : Nat)
    (configuration0 : WindowConfiguration) (options : OpenBrowserWindowOptions) :
    ManagerState × Instr :=
  let configuration :=
    if configuration0.extensionDevelopmentPath.isNone then
      match configuration0.workspace with
      | some w =>
        { configuration0 with
          backupPath := some (env.registerWorkspaceBackup w configuration0.remoteAuthority) }
      | none =>
        match configuration0.folderUri with
        | some f => { configuration0 with backupPath := some (env.registerFolderBackup f) }
        | none =>
          let backupFolder := options.emptyWindowBackupInfo.map (fun i => i.backupFolder)
          { configuration0 with
            backupPath := some (env.registerEmptyWindowBackup backupFolder
              configuration0.remoteAuthority) }
    else configuration0
  let st1 := updateWindow st windowId (fun w =>
    { w with
      openedWorkspace := configuration.workspace,
      openedFolderUri := configuration.folderUri,
      backupPath := configuration.backupPath,
      remoteAuthority := configuration.remoteAuthority,
      isExtensionDevelopmentHost := configuration.extensionDevelopmentPath.isSome,
      isExtensionTestHost := configuration.extensionTestsPath.isSome,
      configExtensionDevelopmentPath := configuration.extensionDevelopmentPath })
  (st1, Instr.loadWindow windowId configuration)

/-- `WindowsManager.openInBrowserWindow` (windows.ts, lines 1332-1452): build
the window configuration from CLI plus options, reuse `windowToUse` or the
last active window unless a new window is forced, otherwise create a fresh
window with `getNewWindowState` geometry; then `doOpenInBrowserWindow`.
The unload-veto round trip for already-loaded windows is modelled as a
veto-free immediate load.  Returns the new state, the id of the used window
and the emitted instruction. -/
def openInBrowserWindow (env : Env) (st : ManagerState) (options : OpenBrowserWindowOptions) :
    ManagerState × Nat × Instr :=
  let configuration0 : WindowConfiguration :=
    { extensionDevelopmentPath := options.cli.extensionDevelopmentPath,
      extensionTestsPath := options.cli.extensionTestsPath,
      workspace := options.workspace,
      folderUri := options.folderUri,
      remoteAuthority := options.remoteAuthority,
      filesToOpenOrCreate := (options.fileInputs.map (fun fi => fi.filesToOpenOrCreate)).getD [],
      filesToDiff := (options.fileInputs.map (fun fi => fi.filesToDiff)).getD [],
      filesToWait := options.fileInputs.bind (fun fi => fi.filesToWait),
      backupPath := options.emptyWindowBackupInfo.map
        (fun info => env.backupHome ++ "/" ++ info.backupFolder) }
  let existing : Option CodeWindow :=
    if !options.forceNewWindow && !options.forceNewTabbedWindow then
      match options.windowToUse.bind (getWindowById st) with
      | some w => some w
      | none => getLastActiveWindow st.windows
    else none
  match existing with
  | some w =>
    -- Existing window: focus, inherit extension development configuration
    let st1 := focusWindow st w.id
    let configuration1 :=
      if configuration0.extensionDevelopmentPath.isNone &&
          w.configExtensionDevelopmentPath.isSome then
        { configuration0 with extensionDevelopmentPath := w.configExtensionDevelopmentPath }
      else configuration0
    let r := doOpenInBrowserWindow env st1 w.id configuration1 options
    (r.1, w.id, r.2)
  | none =>
    -- New window
    let stateFlag := getNewWindowState env st configuration0
    let hasDefaultState := stateFlag.2
    let allowFullscreen :=
      if hasDefaultState then
        env.newWindowDimensions == some "fullscreen" || env.newWindowDimensions == some "inherit"
      else env.wasRestarted || env.restoreFullscreen
    let state :=
      if stateFlag.1.mode == some WindowMode.fullscreen && !allowFullscreen then
        { stateFlag.1 with mode := some WindowMode.normal }
      else stateFlag.1
    let win : CodeWindow :=
      { id := st.nextWindowId,
        isExtensionDevelopmentHost := configuration0.extensionDevelopmentPath.isSome,
        isExtensionTestHost := configuration0.extensionTestsPath.isSome,
        configExtensionDevelopmentPath := configuration0.extensionDevelopmentPath,
        lastFocusTime := st.clock,
        bounds := { x := state.x.getD 0, y := state.y.getD 0,
                    width := state.width.getD 0, height := state.height.getD 0 },
        uiState := state }
    -- WINDOWS.push(window); the windows-count-changed listener (windows.ts,
    -- lines 252-259) clears lastClosedWindowState on every count increase
    let st1 : ManagerState :=
      { st with
        windows := st.windows ++ [win],
        nextWindowId := st.nextWindowId + 1,
        clock := st.clock + 1,
        lastClosedWindowState := none }
    let r := doOpenInBrowserWindow env st1 win.id configuration0 options
    (r.1, win.id, r.2)

/-- `WindowsManager.doOpenFilesInExistingWindow` (windows.ts, lines 753-770):
focus the window and send it the files (`termProgram` in the payload is not
modelled). -/
def doOpenFilesInExistingWindow (st : ManagerState) (windowId : Nat)
    (fileInputs : Option FileInputs) : ManagerState × Nat × Instr :=
  (focusWindow st windowId, windowId, Instr.openFilesInExistingWindow windowId fileInputs)

/-- `WindowsManager.doAddFoldersToExistingWindow` (windows.ts, lines
772-780): focus the window and send it the folders to add. -/
def doAddFoldersToExistingWindow (st : ManagerState) (windowId : Nat)
    (foldersToAdd : List URI) : ManagerState × Nat × Instr :=
  (focusWindow st windowId, windowId, Instr.addFoldersToExistingWindow windowId foldersToAdd)

/-- `WindowsManager.doOpenFolderOrWorkspace` (windows.ts, lines 782-801). -/
def doOpenFolderOrWorkspace (env : Env) (st : ManagerState) (openConfig : OpenConfiguration)
    (folderOrWorkspace : PathToOpen) (forceNewWindow : Bool)
    (fileInputs : Option FileInputs) : ManagerState × Nat × Instr :=
  let windowToUse : Option Nat :=
    if !forceNewWindow then
      match openConfig.contextWindowId with
      | some contextWindowId => (getWindowById st contextWindowId).map (fun w => w.id)
      | none => none
    else none
  openInBrowserWindow env st
    { cli := openConfig.cli,
      initialStartup := openConfig.initialStartup,
      workspace := folderOrWorkspace.workspace,
      folderUri := folderOrWorkspace.folderUri,
      fileInputs := fileInputs,
      remoteAuthority := folderOrWorkspace.remoteAuthority,
      forceNewWindow := forceNewWindow,
      forceNewTabbedWindow := openConfig.forceNewTabbedWindow,
      windowToUse := windowToUse }

/-- The accumulator threading the mutable locals of `WindowsManager.doOpen`
(windows.ts, lines 531-751): the manager state, `usedWindows` (ids, in push
order, before the final dedup), the emitted instructions, the remaining
`fileInputs` and the `openFolderInNewWindow` flag. -/
structure DoOpenAcc where
  st : ManagerState
  used : List Nat := []
  instrs : List Instr := []
  fileInputs : Option FileInputs := none
  openFolderInNewWindow : Bool := false

def DoOpenAcc.push (acc : DoOpenAcc) (r : ManagerState × Nat × Instr)
    (consumedFileInputs : Bool) (forceNext : Bool) : DoOpenAcc :=
  { acc with
    st := r.1,
    used := acc.used ++ [r.2.1],
    instrs := acc.instrs ++ [r.2.2],
    fileInputs := if consumedFileInputs then none else acc.fileInputs,
    openFolderInNewWindow := acc.openFolderInNewWindow || forceNext }

/-- The folders-to-add step of `WindowsManager.doOpen` (windows.ts, lines
546-552): only outside the initial startup, the folders are added to the
last active window of the first folder's remote authority; with no such
window they are silently dropped. -/
def handleFoldersToAdd (openConfig : OpenConfiguration) (foldersToAdd : List PathToOpen)
    (acc : DoOpenAcc) : DoOpenAcc :=
  if !openConfig.initialStartup && foldersToAdd.length > 0 then
    let authority := (foldersToAdd.headD {}).remoteAuthority
    match getLastActiveWindowForAuthority acc.st.windows authority with
    | some lastActiveWindow =>
      acc.push (doAddFoldersToExistingWindow acc.st lastActiveWindow.id
        (foldersToAdd.filterMap (fun f => f.folderUri))) false false
    | none => acc
  else acc

/-- `WindowsManager.doOpen` (windows.ts, lines 531-751).  Returns the new
manager state, the deduplicated `usedWindows` ids (first-use order) and the
instructions emitted along the way. -/
def doOpen (env : Env) (st : ManagerState) (openConfig : OpenConfiguration)
    (workspacesToOpen0 : List PathToOpen) (foldersToOpen0 : List PathToOpen)
    (emptyToRestore : List EmptyWindowBackupInfo) (emptyToOpen0 : Nat)
    (fileInputs0 : Option FileInputs) (foldersToAdd : List PathToOpen) :
    ManagerState × List Nat × List Instr :=
  let newWindowFlags := shouldOpenNewWindow env openConfig
  let openFilesInNewWindow := newWindowFlags.2
  let acc0 : DoOpenAcc :=
    { st := st, fileInputs := fileInputs0, openFolderInNewWindow := newWindowFlags.1 }
  -- Handle folders to add by looking for the last active window (not on initial startup)
  let acc1 : DoOpenAcc := handleFoldersToAdd openConfig foldersToAdd acc0
  -- Handle files to open/diff/create when no folder/workspace/restore opens a window
  let potentialWindowsCount :=
    foldersToOpen0.length + workspacesToOpen0.length + emptyToRestore.length
  let step2 : DoOpenAcc × List PathToOpen × List PathToOpen :=
    if potentialWindowsCount == 0 then
      match acc1.fileInputs with
      | some fi =>
        let fileToCheck : Option PathToOpen :=
          match fi.filesToOpenOrCreate.head? with
          | some f => some f
          | none => fi.filesToDiff.head?
        -- only look at the windows with correct authority
        let windows := acc1.st.windows.filter (fun w => w.remoteAuthority == fi.remoteAuthority)
        match findBestWindowOrFolderForFile windows openFilesInNewWindow
            (fileToCheck.bind (fun f => f.fileUri)) with
        | some bestWindow =>
          match bestWindow.openedWorkspace with
          | some ws =>
            -- Window is workspace
            let entry : PathToOpen :=
              { workspace := some ws, remoteAuthority := bestWindow.remoteAuthority }
            (acc1, workspacesToOpen0 ++ [entry], foldersToOpen0)
          | none =>
            match bestWindow.openedFolderUri with
            | some folder =>
              -- Window is single folder
              let entry : PathToOpen :=
                { folderUri := some folder, remoteAuthority := bestWindow.remoteAuthority }
              (acc1, workspacesToOpen0, foldersToOpen0 ++ [entry])
            | none =>
              -- Window is empty: do open files
              (acc1.push (doOpenFilesInExistingWindow acc1.st bestWindow.id acc1.fileInputs)
                true false, workspacesToOpen0, foldersToOpen0)
        | none =>
          -- no window or folder found: just open the files in an empty window
          (acc1.push (openInBrowserWindow env acc1.st
            { cli := openConfig.cli,
              initialStartup := openConfig.initialStartup,
              fileInputs := acc1.fileInputs,
              forceNewWindow := true,
              remoteAuthority := fi.remoteAuthority,
              forceNewTabbedWindow := openConfig.forceNewTabbedWindow }) true false,
           workspacesToOpen0, foldersToOpen0)
      | none => (acc1, workspacesToOpen0, foldersToOpen0)
    else (acc1, workspacesToOpen0, foldersToOpen0)
  let acc2 := step2.1
  let workspacesToOpen1 := step2.2.1
  let foldersToOpen1 := step2.2.2
  -- Handle workspaces to open (instructed and to restore)
  let allWorkspacesToOpen :=
    distinctBy (fun (w : PathToOpen) => w.workspace.map (fun ws => ws.id)) workspacesToOpen1
  let acc3 : DoOpenAcc :=
    if allWorkspacesToOpen.length > 0 then
      let windowsOnWorkspace := allWorkspacesToOpen.filterMap
        (fun workspaceToOpen =>
          match workspaceToOpen.workspace with
          | some w => findWindowOnWorkspace acc2.st.windows w
          | none => none)
      let accA : DoOpenAcc :=
        match windowsOnWorkspace.head? with
        | some windowOnWorkspace =>
          let fileInputsForWindow :=
            match acc2.fileInputs with
            | some fi =>
              if fi.remoteAuthority == windowOnWorkspace.remoteAuthority then some fi else none
            | none => none
          acc2.push (doOpenFilesInExistingWindow acc2.st windowOnWorkspace.id
            fileInputsForWindow) fileInputsForWindow.isSome true
        | none => acc2
      allWorkspacesToOpen.foldl
        (fun (acc : DoOpenAcc) workspaceToOpen =>
          if windowsOnWorkspace.any (fun win =>
              win.openedWorkspace.map (fun w => w.id) ==
                workspaceToOpen.workspace.map (fun w => w.id)) then
            acc  -- ignore workspaces that are already open
          else
            let fileInputsForWindow :=
              match acc.fileInputs with
              | some fi =>
                if fi.remoteAuthority == workspaceToOpen.remoteAuthority then some fi else none
              | none => none
            acc.push (doOpenFolderOrWorkspace env acc.st openConfig workspaceToOpen
              acc.openFolderInNewWindow fileInputsForWindow) fileInputsForWindow.isSome true)
        accA
    else acc2
  -- Handle folders to open (instructed and to restore)
  let allFoldersToOpen := distinctBy (fun (f : PathToOpen) => f.folderUri) foldersToOpen1
  let acc4 : DoOpenAcc :=
    if allFoldersToOpen.length > 0 then
      let windowsOnFolderPath := allFoldersToOpen.filterMap
        (fun folderToOpen =>
          match folderToOpen.folderUri with
          | some uri => findWindowOnFolderUri acc3.st.windows uri
          | none => none)
      let accA : DoOpenAcc :=
        match windowsOnFolderPath.head? with
        | some windowOnFolderPath =>
          let fileInputsForWindow :=
            match acc3.fileInputs with
            | some fi =>
              if fi.remoteAuthority == windowOnFolderPath.remoteAuthority then some fi else none
            | none => none
          acc3.push (doOpenFilesInExistingWindow acc3.st windowOnFolderPath.id
            fileInputsForWindow) fileInputsForWindow.isSome true
        | none => acc3
      allFoldersToOpen.foldl
        (fun (acc : DoOpenAcc) folderToOpen =>
          if windowsOnFolderPath.any (fun win => win.openedFolderUri == folderToOpen.folderUri)
          then acc  -- ignore folders that are already open
          else
            let fileInputsForWindow :=
              match acc.fileInputs with
              | some fi =>
                if fi.remoteAuthority == folderToOpen.remoteAuthority then some fi else none
              | none => none
            acc.push (doOpenFolderOrWorkspace env acc.st openConfig folderToOpen
              acc.openFolderInNewWindow fileInputsForWindow) fileInputsForWindow.isSome true)
        accA
    else acc3
  -- Handle empty to restore
  let allEmptyToRestore :=
    distinctBy (fun (info : EmptyWindowBackupInfo) => info.backupFolder) emptyToRestore
  let acc5 : DoOpenAcc :=
    if allEmptyToRestore.length > 0 then
      allEmptyToRestore.foldl
        (fun (acc : DoOpenAcc) emptyWindowBackupInfo =>
          let fileInputsForWindow :=
            match acc.fileInputs with
            | some fi =>
              if fi.remoteAuthority == emptyWindowBackupInfo.remoteAuthority then some fi
              else none
            | none => none
          acc.push (openInBrowserWindow env acc.st
            { cli := openConfig.cli,
              initialStartup := openConfig.initialStartup,
              fileInputs := fileInputsForWindow,
              remoteAuthority := emptyWindowBackupInfo.remoteAuthority,
              forceNewWindow := true,
              forceNewTabbedWindow := openConfig.forceNewTabbedWindow,
              emptyWindowBackupInfo := some emptyWindowBackupInfo })
            fileInputsForWindow.isSome true)
        acc4
    else acc4
  -- Handle empty to open (only if no other window opened)
  let acc6 : DoOpenAcc :=
    if acc5.used.length == 0 || acc5.fileInputs.isSome then
      let emptyToOpen :=
        if acc5.fileInputs.isSome && emptyToOpen0 == 0 then emptyToOpen0 + 1 else emptyToOpen0
      let remoteAuthority :=
        match acc5.fileInputs with
        | some fi => fi.remoteAuthority
        | none => openConfig.cli.remote
      (List.range emptyToOpen).foldl
        (fun (acc : DoOpenAcc) _ =>
          let r := openInBrowserWindow env acc.st
            { cli := openConfig.cli,
              initialStartup := openConfig.initialStartup,
              remoteAuthority := remoteAuthority,
              forceNewWindow := acc.openFolderInNewWindow,
              forceNewTabbedWindow := openConfig.forceNewTabbedWindow,
              fileInputs := acc.fileInputs }
          { acc with
            st := r.1,
            used := acc.used ++ [r.2.1],
            instrs := acc.instrs ++ [r.2.2],
            fileInputs := none,
            openFolderInNewWindow := true })
        acc5
    else acc5
  (acc6.st, distinctBy (fun i => i) acc6.used, acc6.instrs)

/- ------------------------------------------------------------------ -/
/- Orchestrator: open() (windows.ts, lines 385-519)                   -/
/- ------------------------------------------------------------------ -/

/-- `IRecent` (`vs/platform/workspaces/common/workspaces`): one entry of the
recently-opened list. -/
inductive Recent
  | workspace (label : Option String) (workspace : WorkspaceIdentifier)
  | folder (label : Option String) (folderUri : URI)
  | file (label : Option String) (fileUri : URI)
deriving DecidableEq

/-- One iteration of the recents loop in `WindowsManager.open` (windows.ts,
lines 498-506): workspace first, then folder, then file. -/
def pathToRecent (pathToOpen : PathToOpen) : Option Recent :=
  match pathToOpen.workspace with
  | some w => some (.workspace pathToOpen.label w)
  | none =>
    match pathToOpen.folderUri with
    | some f => some (.folder pathToOpen.label f)
    | none =>
      match pathToOpen.fileUri with
      | some f => some (.file pathToOpen.label f)
      | none => none

/-- The recents-update step of `WindowsManager.open` (windows.ts, lines
494-508): nothing is recorded when any used window is an extension
development host, when the call was in diff mode, or with `noRecentEntry`. -/
def computeRecents (openConfig : OpenConfiguration) (usedWindows : List CodeWindow)
    (pathsToOpen : List PathToOpen) : List Recent :=
  if !usedWindows.any (fun w => w.isExtensionDevelopmentHost) && !openConfig.diffMode &&
      !openConfig.noRecentEntry then
    pathsToOpen.filterMap pathToRecent
  else []

/-- The focus-selection step of `WindowsManager.open` (windows.ts, lines
453-492), returning the id of the window the step focuses (`none` when at
most one window was used, in which case the step does not run).
`foldersToRestore` is the *outer* variable of `open()`; it stays `[]`
because the restore block re-declares a shadowing local (windows.ts,
line 438). -/
def selectFocusedWindow (windowsState : WindowsState) (openConfig : OpenConfiguration)
    (usedWindows : List CodeWindow) (workspacesToRestore : List PathToOpen)
    (foldersToRestore : List URI) (emptyToRestore : List EmptyWindowBackupInfo) :
    Option Nat :=
  if usedWindows.length > 1 then
    -- focusLastActive (windows.ts, line 456): note that the middle conjunct
    -- is the truthiness of `openConfig.cli._.length`, i.e. it requires the
    -- CLI positional argument list to be NON-empty
    let focusLastActive := windowsState.lastActiveWindow.isSome && !openConfig.forceEmpty &&
      openConfig.cli.posArgs.length != 0 && openConfig.cli.file_uri.isNone &&
      openConfig.cli.folder_uri.isNone &&
      !(match openConfig.urisToOpen with
        | some uris => uris.length != 0
        | none => false)
    -- 1.) focus last active window
    let step1 : Option Nat :=
      if focusLastActive then
        ((usedWindows.filter (fun window =>
            window.backupPath ==
              windowsState.lastActiveWindow.bind (fun s => s.backupPath))).head?).map
          (fun w => w.id)
      else none
    match step1 with
    | some windowId => some windowId
    | none =>
      -- 2.) if instructed to open paths, focus last window which is not restored
      let step2 := usedWindows.reverse.find? (fun usedWindow =>
        !((usedWindow.openedWorkspace.isSome &&
            workspacesToRestore.any (fun workspace =>
              workspace.workspace.map (fun w => w.id) ==
                usedWindow.openedWorkspace.map (fun w => w.id))) ||
          (usedWindow.openedFolderUri.isSome &&
            foldersToRestore.any (fun uri => some uri == usedWindow.openedFolderUri)) ||
          (usedWindow.backupPath.isSome &&
            emptyToRestore.any (fun empty =>
              some empty.backupFolder == usedWindow.backupPath.map basename))))
      match step2 with
      | some w => some w.id
      | none =>
        -- 3.) finally, always ensure to have at least last used window focused
        (usedWindows.getLast?).map (fun w => w.id)
  else none

/-- The observable outcome of one `WindowsManager.open` call. -/
structure OpenOutcome where
  st : ManagerState
  usedWindows : List CodeWindow
  instrs : List Instr
  focusedWindowId : Option Nat
  recents : List Recent
  waitRegistered : Bool

/-- `WindowsManager.open` (windows.ts, lines 385-519); `open` is a Lean
keyword, hence `openCall`.  Returns the final manager state, the used
windows (deduplicated, in first-use order, with their final record), the
emitted instructions, the window focused by the focus-selection step, the
recents reported to `addRecentlyOpened`, and whether the wait-marker
listener was registered (windows.ts, lines 510-516). -/
def openCall (env : Env) (st : ManagerState) (openConfig0 : OpenConfiguration) : OpenOutcome :=
  let openConfig := validateOpenConfig st openConfig0
  let pathsToOpen := getPathsToOpen env st openConfig
  let classified := classifyPaths openConfig pathsToOpen
  let fileInputs1 := applyDiffMode openConfig.diffMode classified.fileInputs
  let fileInputs2 := applyWaitMarker openConfig.waitMarkerFileURI fileInputs1
  -- Windows to restore from hot exit / previous session (windows.ts, lines
  -- 432-448), only on initial startup
  let doRestore := openConfig.initialStartup &&
    openConfig.cli.extensionDevelopmentPath.isNone &&
    !openConfig.cli.disable_restore_windows
  -- the outer `foldersToRestore` of open() is never assigned: the restore
  -- block re-declares a shadowing `let foldersToRestore` (windows.ts, line 438)
  let foldersToRestore : List URI := []
  let workspacesToRestore :=
    if doRestore then env.workspaceBackups ++ env.untitledWorkspaces else []
  -- the restored folder backups are pushed into foldersToAdd (windows.ts,
  -- line 439); their object literal spells the key `remoteAuhority`, so the
  -- typed `remoteAuthority` field of the pushed entries stays undefined
  let foldersToAdd := classified.foldersToAdd ++
    (if doRestore then
      env.folderBackupPaths.map (fun f => ({ folderUri := some f } : PathToOpen))
     else [])
  let workspacesToOpen := classified.workspacesToOpen ++ workspacesToRestore
  -- `emptyToRestore.length = 0` in the else branch clears the array
  let emptyToRestore :=
    if doRestore then classified.emptyToRestore ++ env.emptyWindowBackupPaths else []
  let r := doOpen env st openConfig workspacesToOpen classified.foldersToOpen emptyToRestore
    classified.emptyToOpen fileInputs2 foldersToAdd
  let st1 := r.1
  let usedWindows := r.2.1.filterMap (getWindowById st1)
  let focusedWindowId := selectFocusedWindow st.windowsState openConfig usedWindows
    workspacesToRestore foldersToRestore emptyToRestore
  let recents := computeRecents openConfig usedWindows pathsToOpen
  let waitRegistered := openConfig.context == OpenContext.CLI &&
    openConfig.waitMarkerFileURI.isSome && usedWindows.length == 1
  { st := st1, usedWindows := usedWindows, instrs := r.2.2,
    focusedWindowId := focusedWindowId, recents := recents,
    waitRegistered := waitRegistered }

/- ------------------------------------------------------------------ -/
/- SessionStore: shutdown persistence (windows.ts, lines 304-383)     -/
/- ------------------------------------------------------------------ -/

/-- `WindowsManager.toWindowState` (windows.ts, lines 375-383);
`serializeWindowState()` is the stored `uiState`. -/
def toWindowState (win : CodeWindow) : WindowState :=
  { workspace := win.openedWorkspace,
    folderUri := win.openedFolderUri,
    backupPath := win.backupPath,
    remoteAuthority := win.remoteAuthority,
    uiState := win.uiState }

/-- `WindowsManager.onBeforeShutdown` (windows.ts, lines 304-340): the
`WindowsState` persisted through the state service
(`getWindowsStateStoreData`/`restoreWindowsState` round-trip is modelled as
the identity). -/
def onBeforeShutdown (st : ManagerState) : WindowsState :=
  let s0 : WindowsState :=
    { openedWindows := [],
      lastPluginDevelopmentHostWindow := st.windowsState.lastPluginDevelopmentHostWindow,
      lastActiveWindow := st.lastClosedWindowState }
  -- 1.) find a last active window (pick any other first window otherwise)
  let s1 : WindowsState :=
    if s0.lastActiveWindow.isNone then
      let activeWindow0 := getLastActiveWindow st.windows
      let activeWindow :=
        match activeWindow0 with
        | some w =>
          if w.isExtensionDevelopmentHost then
            (st.windows.filter (fun v => !v.isExtensionDevelopmentHost)).head?
          else some w
        | none => (st.windows.filter (fun v => !v.isExtensionDevelopmentHost)).head?
      match activeWindow with
      | some w => { s0 with lastActiveWindow := some (toWindowState w) }
      | none => s0
    else s0
  -- 2.) find extension host window
  let s2 : WindowsState :=
    match (st.windows.filter
        (fun w => w.isExtensionDevelopmentHost && !w.isExtensionTestHost)).head? with
    | some extensionHostWindow =>
      { s1 with lastPluginDevelopmentHostWindow := some (toWindowState extensionHostWindow) }
    | none => s1
  -- 3.) all windows (except extension host) for N >= 2
  if st.windows.length > 1 then
    { s2 with openedWindows :=
        (st.windows.filter (fun w => !w.isExtensionDevelopmentHost)).map toWindowState }
  else s2

/- ------------------------------------------------------------------ -/
/- waitForWindowCloseOrLoad (windows.ts, lines 1656-1670)             -/
/- ------------------------------------------------------------------ -/

/-- A window lifecycle event observable through `onWindowClose` /
`onWindowLoad` (windows.ts, lines 175-179): both carry the window id. -/
inductive WindowEvent
  | close (id : Nat)
  | load (id : Nat)
deriving DecidableEq

def windowEventId : WindowEvent → Nat
  | .close i => i
  | .load i => i

/-- `WindowsManager.waitForWindowCloseOrLoad` (windows.ts, lines 1656-1670)
run over a finite trace of events: the `handler` fires for every event while
the two listeners are registered (`listenersActive`), and on the first event
carrying the awaited window id it disposes both listeners and resolves the
promise.  Returns how many times the promise resolution fired and whether
the listeners are still registered afterwards. -/
def waitRun (windowId : Nat) : List WindowEvent → Bool → Nat × Bool
  | [], listenersActive => (0, listenersActive)
  | e :: rest, listenersActive =>
    if listenersActive && windowEventId e == windowId then
      let r := waitRun windowId rest false
      (r.1 + 1, r.2)
    else waitRun windowId rest listenersActive

/-- A registered `waitForWindowCloseOrLoad` listener processing a trace. -/
def waitForWindowCloseOrLoad (windowId : Nat) (events : List WindowEvent) : Nat × Bool :=
  waitRun windowId events true

/- ================================================================== -/
/- Theorems                                                           -/
/- ================================================================== -/

theorem foldl_max_eq_or_mem (l : List Int) (a : Int) :
    l.foldl max a = a ∨ (l.foldl max a) ∈ l := by
  induction l generalizing a with
  | nil => left; rfl
  | cons b t ih =>
    rw [List.foldl_cons]
    rcases ih (max a b) with h | h
    · rw [h]
      rcases le_total a b with hab | hab
      · right
        rw [max_eq_right hab]
        exact List.mem_cons_self b t
      · left
        rw [max_eq_left hab]
    · right
      exact List.mem_cons_of_mem b h

theorem getLastActiveWindow_isSome (windows : List CodeWindow) (h : windows ≠ []) :
    (getLastActiveWindow windows).isSome = true := by
  match windows, h with
  | w :: ws, _ =>
    rw [getLastActiveWindow]
    rw [List.find?_isSome]
    have hfold : ws.foldl (fun m u => max m u.lastFocusTime) w.lastFocusTime =
        (ws.map (·.lastFocusTime)).foldl max w.lastFocusTime := by
      rw [List.foldl_map]
    rcases foldl_max_eq_or_mem (ws.map (·.lastFocusTime)) w.lastFocusTime with hm | hm
    · refine ⟨w, List.mem_cons_self w ws, beq_iff_eq.mpr ?_⟩
      rw [hfold, hm]
    · rcases List.mem_map.mp hm with ⟨v, hv, hveq⟩
      refine ⟨v, List.mem_cons_of_mem w hv, beq_iff_eq.mpr ?_⟩
      rw [hfold, hveq]

/-- Complete characterization of the `ensureNoOverlap` while loop: the
result is the first +30/+30 shift at which no existing window shares the
candidate x or y coordinate; every earlier shift had a window sharing one
of the two. -/
theorem shiftWhileSharedAxis_spec (bounds : List WindowBounds) (x y : Int) :
    ∃ k : Nat, shiftWhileSharedAxis bounds x y = (x + 30 * k, y + 30 * k) ∧
      (∀ b ∈ bounds, b.x ≠ x + 30 * k ∧ b.y ≠ y + 30 * k) ∧
      (∀ j : Nat, j < k → ∃ b ∈ bounds, b.x = x + 30 * j ∨ b.y = y + 30 * j) := by
  induction x, y using shiftWhileSharedAxis.induct bounds with
  | case1 x y hcond ih =>
    rcases ih with ⟨k, hk, hnone, hmin⟩
    refine ⟨k + 1, ?_, ?_, ?_⟩
    · rw [shiftWhileSharedAxis, dif_pos hcond, hk, Prod.mk.injEq]
      constructor <;> (push_cast; ring)
    · intro b hb
      have h2 := hnone b hb
      push_cast
      constructor
      · intro hEq
        exact h2.1 (by omega)
      · intro hEq
        exact h2.2 (by omega)
    · intro j hj
      match j, hj with
      | 0, _ =>
        rcases List.any_eq_true.mp hcond with ⟨b, hb, hbeq⟩
        refine ⟨b, hb, ?_⟩
        push_cast
        rcases Bool.or_eq_true_iff.mp hbeq with hc | hc
        · left
          have := beq_iff_eq.mp hc
          omega
        · right
          have := beq_iff_eq.mp hc
          omega
      | j + 1, hj =>
        have hj' : j < k := by omega
        rcases hmin j hj' with ⟨b, hb, hbor⟩
        refine ⟨b, hb, ?_⟩
        push_cast
        rcases hbor with hc | hc
        · left; omega
        · right; omega
  | case2 x y hcond =>
    have hall : ∀ b ∈ bounds, b.x ≠ x ∧ b.y ≠ y := by
      intro b hb
      constructor
      · intro hEq
        exact hcond (List.any_eq_true.mpr ⟨b, hb,
          Bool.or_eq_true_iff.mpr (Or.inl (beq_iff_eq.mpr hEq))⟩)
      · intro hEq
        exact hcond (List.any_eq_true.mpr ⟨b, hb,
          Bool.or_eq_true_iff.mpr (Or.inr (beq_iff_eq.mpr hEq))⟩)
    refine ⟨0, ?_, ?_, ?_⟩
    · rw [shiftWhileSharedAxis, dif_neg hcond]
      norm_num
    · intro b hb
      have := hall b hb
      push_cast
      constructor
      · intro hEq
        exact this.1 (by omega)
      · intro hEq
        exact this.2 (by omega)
    · intro j hj
      omega

/-- The placement consequence: whenever `ensureNoOverlap` runs against a
non-empty window list, the resulting top-left differs from every existing
window's top-left in both coordinates. -/
theorem ensureNoOverlap_strictly_offset (windows : List CodeWindow) (state : SingleWindowState)
    (hne : windows.length ≠ 0) :
    ∀ w ∈ windows, (ensureNoOverlap windows state).x ≠ some w.bounds.x ∧
      (ensureNoOverlap windows state).y ≠ some w.bounds.y := by
  intro w hw
  have hcond : (windows.length == 0) = false := by
    rw [beq_eq_false_iff_ne]
    exact hne
  rw [ensureNoOverlap, hcond]
  simp only [Bool.false_eq_true, if_false]
  rcases shiftWhileSharedAxis_spec (windows.map (·.bounds)) (state.x.getD 0) (state.y.getD 0)
    with ⟨k, hk, hnone, _⟩
  have hb : w.bounds ∈ windows.map (·.bounds) := List.mem_map_of_mem _ hw
  have h2 := hnone w.bounds hb
  rw [hk]
  constructor
  · intro hEq
    rw [Option.some_inj] at hEq
    exact h2.1 hEq.symm
  · intro hEq
    rw [Option.some_inj] at hEq
    exact h2.2 hEq.symm

/-- On the default placement path (no extension tests/development state, no
workspace/folder/backup identity with stored geometry, a last active window
exists, no `newWindowDimensions` override), `getNewWindowState` is exactly
overlap-avoidance applied to the default centered state. -/
theorem getNewWindowState_default_path (env : Env) (st : ManagerState)
    (configuration : WindowConfiguration)
    (htest : configuration.extensionTestsPath = none)
    (hdev : configuration.extensionDevelopmentPath = none)
    (hws : configuration.workspace = none)
    (hfolder : configuration.folderUri = none)
    (hbackup : configuration.backupPath = none)
    (hwin : st.windows ≠ [])
    (hnwd : env.newWindowDimensions = none ∨ env.newWindowDimensions = some "default") :
    getNewWindowState env st configuration =
      (ensureNoOverlap st.windows
        { defaultWindowState with
          x := some (roundHalfOfSum (pickDisplay env (getLastActiveWindow st.windows)).bounds.x
            (pickDisplay env (getLastActiveWindow st.windows)).bounds.width 1024),
          y := some (roundHalfOfSum (pickDisplay env (getLastActiveWindow st.windows)).bounds.y
            (pickDisplay env (getLastActiveWindow st.windows)).bounds.height 768) }, true) := by
  obtain ⟨la, hla⟩ := Option.isSome_iff_exists.mp (getLastActiveWindow_isSome st.windows hwin)
  have hmax : (env.newWindowDimensions == some "maximized") = false := by
    rcases hnwd with h | h <;> rw [h] <;> rfl
  have hfull : (env.newWindowDimensions == some "fullscreen") = false := by
    rcases hnwd with h | h <;> rw [h] <;> rfl
  have hinh : (env.newWindowDimensions == some "inherit") = false := by
    rcases hnwd with h | h <;> rw [h] <;> rfl
  simp only [getNewWindowState, htest, hdev, hws, hfolder, hbackup, hla, hmax, hfull, hinh,
    defaultWindowState, Option.isSome_none, Option.isNone_none, Option.isSome_some,
    Option.isNone_some, Bool.false_eq_true, if_false, Bool.false_and, Option.getD_some]

/-- Concrete placement scenario for C4: one existing window whose top-left
(100, 200) shares only the x coordinate with the candidate (100, 500). -/
def overlapWindow : CodeWindow := { id := 1, bounds := ⟨100, 200, 1024, 768⟩ }

def overlapCandidate : SingleWindowState := { x := some 100, y := some 500 }

/-- **C4, counterexample.**  The claim says the +30/+30 shift repeats
exactly while some existing window's top-left shares BOTH the candidate x
and the candidate y coordinate.  With one window at (100, 200) and the
candidate (100, 500) — shared x only — that reading leaves the candidate
untouched, but the code (`ensureNoOverlap`, whose loop condition is
`b.x === state.x || b.y === state.y`) shifts it to (130, 530). -/
theorem C4_counterexample :
    ensureNoOverlap [overlapWindow] overlapCandidate =
      { x := some 130, y := some 530 } ∧
    ensureNoOverlapBothAxes [overlapWindow] overlapCandidate =
      { x := some 100, y := some 500 } ∧
    ensureNoOverlap [overlapWindow] overlapCandidate ≠
      ensureNoOverlapBothAxes [overlapWindow] overlapCandidate := by
  have h1 : ensureNoOverlap [overlapWindow] overlapCandidate =
      { x := some 130, y := some 530 } := by
    simp only [ensureNoOverlap, overlapWindow, overlapCandidate]
    rw [shiftWhileSharedAxis]
    norm_num
    rw [shiftWhileSharedAxis]
    norm_num
  have h2 : ensureNoOverlapBothAxes [overlapWindow] overlapCandidate =
      { x := some 100, y := some 500 } := by
    simp only [ensureNoOverlapBothAxes, overlapWindow, overlapCandidate]
    rw [shiftWhileSharedCorner]
    norm_num
  refine ⟨h1, h2, ?_⟩
  rw [h1, h2]
  decide

/-- **C4** (amended).  Whenever a new window's geometry is computed from the
default centered state (no stored per-workspace/folder/backup state, no
maximized/fullscreen/inherit dimension override), the placement logic
shifts the candidate position by the fixed step +30/+30, repeating exactly
while some existing window's top-left corner shares the candidate x
coordinate OR the candidate y coordinate (the source's loop condition is
the disjunction — the only change the counterexample forces on the claim);
consequently a window placed immediately after another at the same computed
default position gets a top-left strictly offset from the first window's,
never identical coordinates (indeed differing in both coordinates). -/
theorem C4_overlap_avoidance :
    (∀ (bounds : List WindowBounds) (x y : Int),
      ∃ k : Nat, shiftWhileSharedAxis bounds x y = (x + 30 * k, y + 30 * k) ∧
        (∀ b ∈ bounds, b.x ≠ x + 30 * k ∧ b.y ≠ y + 30 * k) ∧
        (∀ j : Nat, j < k → ∃ b ∈ bounds, b.x = x + 30 * j ∨ b.y = y + 30 * j)) ∧
    (∀ (windows : List CodeWindow) (state : SingleWindowState), windows.length ≠ 0 →
      ∀ w ∈ windows, (ensureNoOverlap windows state).x ≠ some w.bounds.x ∧
        (ensureNoOverlap windows state).y ≠ some w.bounds.y) ∧
    (∀ (env : Env) (st : ManagerState) (configuration : WindowConfiguration),
      configuration.extensionTestsPath = none →
      configuration.extensionDevelopmentPath = none →
      configuration.workspace = none →
      configuration.folderUri = none →
      configuration.backupPath = none →
      st.windows ≠ [] →
      (env.newWindowDimensions = none ∨ env.newWindowDimensions = some "default") →
      getNewWindowState env st configuration =
        (ensureNoOverlap st.windows
          { defaultWindowState with
            x := some (roundHalfOfSum (pickDisplay env (getLastActiveWindow st.windows)).bounds.x
              (pickDisplay env (getLastActiveWindow st.windows)).bounds.width 1024),
            y := some (roundHalfOfSum (pickDisplay env (getLastActiveWindow st.windows)).bounds.y
              (pickDisplay env (getLastActiveWindow st.windows)).bounds.height 768) }, true)) :=
  ⟨shiftWhileSharedAxis_spec, ensureNoOverlap_strictly_offset, getNewWindowState_default_path⟩

def C4envW : Env := {}

def C4stW : ManagerState := { windows := [overlapWindow] }

/-- Witness for C4: the hypotheses of `C4_overlap_avoidance` discharged at a
concrete input. -/
theorem C4_witness :
    ([overlapWindow] : List CodeWindow).length ≠ 0 ∧
    (ensureNoOverlap [overlapWindow] overlapCandidate).x ≠ some 100 ∧
    (ensureNoOverlap [overlapWindow] overlapCandidate).y ≠ some 200 ∧
    getNewWindowState C4envW C4stW {} =
      (ensureNoOverlap C4stW.windows
        { defaultWindowState with
          x := some (roundHalfOfSum (pickDisplay C4envW (getLastActiveWindow C4stW.windows)).bounds.x
            (pickDisplay C4envW (getLastActiveWindow C4stW.windows)).bounds.width 1024),
          y := some (roundHalfOfSum (pickDisplay C4envW (getLastActiveWindow C4stW.windows)).bounds.y
            (pickDisplay C4envW (getLastActiveWindow C4stW.windows)).bounds.height 768) }, true) := by
  have h := C4_overlap_avoidance
  have hmem : overlapWindow ∈ ([overlapWindow] : List CodeWindow) := by decide
  have hoff := h.2.1 [overlapWindow] overlapCandidate (by decide) overlapWindow hmem
  refine ⟨by decide, hoff.1, hoff.2, ?_⟩
  exact h.2.2 C4envW C4stW {} rfl rfl rfl rfl rfl (by decide) (Or.inl rfl)

/- ------------------------------------------------------------------ -/
/- C2: focus selection (windows.ts, lines 453-492)                    -/
/- ------------------------------------------------------------------ -/

/-- C2 scenario: restore two folder windows from the previous session with
no CLI paths; the persisted last-active window state matches the first
restored window by backup path. -/
def folderA : URI := URI.file "/a"

def folderB : URI := URI.file "/b"

def C2stateA : WindowState := { folderUri := some folderA, backupPath := some "bpA" }

def C2stateB : WindowState := { folderUri := some folderB, backupPath := some "bpB" }

def C2env : Env :=
  { restoreWindows := some "all",
    stat := fun p => if p == "/a" || p == "/b" then some ⟨false, true⟩ else none,
    registerFolderBackup := fun u => if u.path == "/a" then "bpA" else "bpB" }

def C2st : ManagerState :=
  { windowsState := { lastActiveWindow := some C2stateA, openedWindows := [C2stateA, C2stateB] } }

def C2cfg : OpenConfiguration := { initialStartup := true }

/-- **C2, evaluation at the failing input.**  A startup `open()` with no CLI
positional paths, no file/folder URIs and no API targets restores two
windows; window 1 carries the backup path `bpA` of the persisted
last-active window state, yet the focus-selection step focuses window 2:
the `focusLastActive` guard (windows.ts, line 456) requires
`openConfig.cli._.length` to be truthy, i.e. a NON-empty positional list,
although its own comment says "focus last active window if we are not
instructed to open any paths". -/
theorem C2_focus_skips_last_active :
    C2cfg.cli.posArgs = [] ∧
    C2cfg.cli.file_uri = none ∧
    C2cfg.cli.folder_uri = none ∧
    C2cfg.urisToOpen = none ∧
    C2cfg.forceEmpty = false ∧
    C2st.windowsState.lastActiveWindow.bind (fun s => s.backupPath) = some "bpA" ∧
    (openCall C2env C2st C2cfg).usedWindows.map (fun w => (w.id, w.backupPath)) =
      [(1, some "bpA"), (2, some "bpB")] ∧
    (openCall C2env C2st C2cfg).focusedWindowId = some 2 := by
  decide

/- ------------------------------------------------------------------ -/
/- C3: restore of folder backups (windows.ts, lines 432-448, 546-552) -/
/- ------------------------------------------------------------------ -/

/-- C3 scenario: one folder backup `/f` is registered, the call is the
initial startup with restore enabled and no explicit targets, and there is
no previous-session window state. -/
def C3env : Env := { folderBackupPaths := [URI.file "/f"] }

def C3cfg : OpenConfiguration := { initialStartup := true }

/-- **C3, evaluation at the failing input.**  On initial startup with a
registered folder backup `/f`, `open()` opens exactly one window, an empty
one: no window is opened on `/f` and no folders are added to any window.
The restore block (windows.ts, line 439) pushes the backed-up folders into
`foldersToAdd` (with the authority under a misspelled `remoteAuhority` key),
and `doOpen` only consumes `foldersToAdd` when `!openConfig.initialStartup`
(line 546) — so on startup the backed-up folders are dropped entirely. -/
theorem C3_folder_backups_never_opened :
    C3env.folderBackupPaths = [URI.file "/f"] ∧
    C3cfg.initialStartup = true ∧
    C3cfg.cli.extensionDevelopmentPath = none ∧
    C3cfg.cli.disable_restore_windows = false ∧
    (openCall C3env {} C3cfg).st.windows.map (fun w => w.openedFolderUri) = [none] ∧
    (openCall C3env {} C3cfg).usedWindows.length = 1 ∧
    ((openCall C3env {} C3cfg).instrs.filter (fun i =>
      match i with
      | .addFoldersToExistingWindow _ _ => true
      | _ => false)) = [] := by
  decide

/- ------------------------------------------------------------------ -/
/- C5: shutdown persistence (windows.ts, lines 304-340)               -/
/- ------------------------------------------------------------------ -/

def C5devWindow : CodeWindow := { id := 7, isExtensionDevelopmentHost := true, lastFocusTime := 5 }

/-- **C5, counterexample.**  With exactly one window open at shutdown — an
extension-development-host window — `lastActiveWindow` is NOT populated
with that window's state (it stays empty): step 1 of `onBeforeShutdown`
excludes extension-development windows and falls back to the first
non-development window, of which there is none. -/
theorem C5_counterexample :
    ({ windows := [C5devWindow] } : ManagerState).windows.length = 1 ∧
    (onBeforeShutdown { windows := [C5devWindow] }).lastActiveWindow = none ∧
    (onBeforeShutdown { windows := [C5devWindow] }).openedWindows = [] := by
  decide

theorem onBeforeShutdown_openedWindows_le_one (st : ManagerState)
    (h : st.windows.length ≤ 1) : (onBeforeShutdown st).openedWindows = [] := by
  have hcond : ¬(st.windows.length > 1) := by omega
  simp only [onBeforeShutdown, if_neg hcond]
  repeat' split
  all_goals rfl

/-- **C5** (amended).  For every shutdown at which exactly one window is
open and that window is not an extension-development host (and no
last-closed-window state is pending, which is the reachable situation while
a window is still open), the persisted `WindowsState` has `lastActiveWindow`
populated with that window's state and `openedWindows` empty; the
restore-windows policy is not consulted by `onBeforeShutdown` at all, and
`openedWindows` is populated only when more than one window is open at
shutdown.  (A lone extension-development window populates only
`lastPluginDevelopmentHostWindow`; see the counterexample.) -/
theorem C5_single_window_rule :
    (∀ (st : ManagerState) (w : CodeWindow), st.windows = [w] →
      w.isExtensionDevelopmentHost = false → st.lastClosedWindowState = none →
      (onBeforeShutdown st).lastActiveWindow = some (toWindowState w) ∧
      (onBeforeShutdown st).openedWindows = []) ∧
    (∀ st : ManagerState, st.windows.length ≤ 1 → (onBeforeShutdown st).openedWindows = []) ∧
    (∀ st : ManagerState, (onBeforeShutdown st).openedWindows ≠ [] → st.windows.length > 1) := by
  refine ⟨?_, onBeforeShutdown_openedWindows_le_one, ?_⟩
  · intro st w hw hdev hclosed
    have hla : getLastActiveWindow [w] = some w := by
      rw [getLastActiveWindow]
      simp
    rw [onBeforeShutdown, hw, hclosed]
    simp [hla, hdev]
  · intro st h
    by_contra hlen
    push_neg at hlen
    exact h (onBeforeShutdown_openedWindows_le_one st (by omega))

def C5plainWindow : CodeWindow := { id := 3, openedFolderUri := some folderA, lastFocusTime := 4 }

/-- Witness for C5: the amended single-window rule applied to a concrete
one-window state. -/
theorem C5_witness :
    (onBeforeShutdown { windows := [C5plainWindow] }).lastActiveWindow =
      some (toWindowState C5plainWindow) ∧
    (onBeforeShutdown { windows := [C5plainWindow] }).openedWindows = [] :=
  C5_single_window_rule.1 { windows := [C5plainWindow] } C5plainWindow rfl rfl rfl

/- ------------------------------------------------------------------ -/
/- C7: wait-marker listener (windows.ts, lines 510-516, 1656-1670)    -/
/- ------------------------------------------------------------------ -/

theorem waitRun_inactive (windowId : Nat) (events : List WindowEvent) :
    waitRun windowId events false = (0, false) := by
  induction events with
  | nil => rfl
  | cons e rest ih =>
    rw [waitRun]
    simp [ih]

theorem waitRun_active (windowId : Nat) (events : List WindowEvent) :
    waitRun windowId events true =
      (if events.any (fun e => windowEventId e == windowId) then 1 else 0,
       !events.any (fun e => windowEventId e == windowId)) := by
  induction events with
  | nil => rfl
  | cons e rest ih =>
    rw [waitRun]
    by_cases h : (windowEventId e == windowId) = true
    · simp [h, waitRun_inactive]
    · simp [h, ih]

/-- All fields of the open configuration other than `addMode` survive
`validateOpenConfig` unchanged. -/
theorem validateOpenConfig_fields (st : ManagerState) (cfg : OpenConfiguration) :
    (validateOpenConfig st cfg).context = cfg.context ∧
    (validateOpenConfig st cfg).waitMarkerFileURI = cfg.waitMarkerFileURI ∧
    (validateOpenConfig st cfg).diffMode = cfg.diffMode ∧
    (validateOpenConfig st cfg).noRecentEntry = cfg.noRecentEntry ∧
    (validateOpenConfig st cfg).initialStartup = cfg.initialStartup ∧
    (validateOpenConfig st cfg).urisToOpen = cfg.urisToOpen ∧
    (validateOpenConfig st cfg).gotoLineMode = cfg.gotoLineMode ∧
    (validateOpenConfig st cfg).cli = cfg.cli ∧
    (validateOpenConfig st cfg).forceEmpty = cfg.forceEmpty := by
  rw [validateOpenConfig]
  split <;> exact ⟨rfl, rfl, rfl, rfl, rfl, rfl, rfl, rfl, rfl⟩

/-- The wait-marker registration guard of `open()` (windows.ts, line 514),
read off the outcome. -/
theorem openCall_waitRegistered (env : Env) (st : ManagerState) (cfg : OpenConfiguration) :
    (openCall env st cfg).waitRegistered =
      ((validateOpenConfig st cfg).context == OpenContext.CLI &&
        (validateOpenConfig st cfg).waitMarkerFileURI.isSome &&
        (openCall env st cfg).usedWindows.length == 1) := rfl

/-- C7 scenario for the counterexample: an API-context `open()` with a wait
marker whose result is exactly one window. -/
def C7uri : URI := ⟨"vscode-remote", "x", "/proj"⟩

def C7cfg : OpenConfiguration :=
  { context := OpenContext.API,
    urisToOpen := some [.folderToOpen C7uri none],
    waitMarkerFileURI := some (URI.file "/tmp/wait-marker") }

/-- **C7, counterexample.**  An `open()` call with a wait marker set whose
result is exactly one window, but issued in the API context: no wait
listener is registered, because the guard (windows.ts, line 514)
additionally requires `openConfig.context === OpenContext.CLI`. -/
theorem C7_counterexample :
    C7cfg.waitMarkerFileURI.isSome = true ∧
    (openCall {} {} C7cfg).usedWindows.length = 1 ∧
    (openCall {} {} C7cfg).waitRegistered = false := by
  decide

/-- **C7** (amended).  For every `open()` call *in the CLI context* with a
wait-marker file set whose result is exactly one window, the one-shot
listener is registered (and only then); over any trace of close/load
events, the registered listener signals completion exactly once as soon as
some event carries the awaited window id — never before such an event, at
most once even if further close or load events follow — and both
underlying listeners are disposed at the first matching event. -/
theorem C7_wait_marker :
    (∀ (env : Env) (st : ManagerState) (cfg : OpenConfiguration),
      ((openCall env st cfg).waitRegistered = true ↔
        (cfg.context = OpenContext.CLI ∧ cfg.waitMarkerFileURI.isSome = true ∧
          (openCall env st cfg).usedWindows.length = 1))) ∧
    (∀ (windowId : Nat) (events : List WindowEvent),
      (waitForWindowCloseOrLoad windowId events).1 ≤ 1 ∧
      ((waitForWindowCloseOrLoad windowId events).1 = 1 ↔
        events.any (fun e => windowEventId e == windowId) = true) ∧
      ((∀ e ∈ events, windowEventId e ≠ windowId) →
        (waitForWindowCloseOrLoad windowId events).1 = 0) ∧
      (waitForWindowCloseOrLoad windowId events).2 =
        !(events.any (fun e => windowEventId e == windowId))) := by
  constructor
  · intro env st cfg
    obtain ⟨hctx, hwait, _⟩ := validateOpenConfig_fields st cfg
    rw [openCall_waitRegistered, hctx, hwait]
    simp only [Bool.and_eq_true, beq_iff_eq]
    constructor
    · rintro ⟨⟨h1, h2⟩, h3⟩
      exact ⟨h1, h2, h3⟩
    · rintro ⟨h1, h2, h3⟩
      exact ⟨⟨h1, h2⟩, h3⟩
  · intro windowId events
    rw [waitForWindowCloseOrLoad, waitRun_active]
    refine ⟨?_, ?_, ?_, rfl⟩
    · split <;> omega
    · split
      · next h => simp [h]
      · next h => simp [h]
    · intro hnone
      have : events.any (fun e => windowEventId e == windowId) = false := by
        rw [List.any_eq_false]
        intro e he hx
        exact hnone e he (beq_iff_eq.mp hx)
      simp [this]

/-- Witness for C7: a CLI-context call with a wait marker and one resulting
window registers the listener; a trace with a matching event resolves once,
a trace without one never resolves. -/
theorem C7_witness :
    (openCall {} {} { C7cfg with context := OpenContext.CLI }).waitRegistered = true ∧
    (waitForWindowCloseOrLoad 1 [.close 2, .load 1, .close 1]).1 = 1 ∧
    (waitForWindowCloseOrLoad 1 [.close 2]).1 = 0 := by
  refine ⟨?_, ?_, ?_⟩
  · exact (C7_wait_marker.1 {} {} { C7cfg with context := OpenContext.CLI }).mpr
      ⟨rfl, rfl, by decide⟩
  · exact (C7_wait_marker.2 1 [.close 2, .load 1, .close 1]).2.1.mpr (by decide)
  · exact (C7_wait_marker.2 1 [.close 2]).2.2.1 (by decide)

/- ------------------------------------------------------------------ -/
/- C8: recents update (windows.ts, lines 494-508)                     -/
/- ------------------------------------------------------------------ -/

set_option maxHeartbeats 2000000 in
/-- The recents component of `open()`, read off the outcome. -/
theorem openCall_recents (env : Env) (st : ManagerState) (cfg : OpenConfiguration) :
    (openCall env st cfg).recents =
      computeRecents (validateOpenConfig st cfg) (openCall env st cfg).usedWindows
        (getPathsToOpen env st (validateOpenConfig st cfg)) := rfl

/-- C8 scenario for the counterexample: a diff-mode call carrying exactly
one file target, which therefore is NOT paired into a diff. -/
def C8fileUri : URI := ⟨"vscode-remote", "x", "/one.ts"⟩

def C8cfg : OpenConfiguration :=
  { diffMode := true, urisToOpen := some [.fileToOpen C8fileUri none] }

/-- C8 second scenario: a plain folder call whose one used window is an
extension development host (the CLI carries an extension development
path). -/
def C8devUri : URI := ⟨"vscode-remote", "x", "/dev"⟩

def C8devCfg : OpenConfiguration :=
  { urisToOpen := some [.folderToOpen C8devUri none],
    cli := { extensionDevelopmentPath := some ["/ext"] } }

set_option maxRecDepth 16000 in
set_option maxHeartbeats 4000000 in
/-- **C8, counterexample.**  Two refutations of the unamended claim, both
from the same guard (windows.ts, line 496).  First: in a diff-mode call
with a single file target the file is opened (it sits in the one load
instruction's `filesToOpenOrCreate`, and `filesToDiff` is empty, so it is
not part of any diff pair) and `noRecentEntry` is unset and no used window
is an extension development host — yet nothing is reported to the recents
tracker, because the recents step skips the whole call whenever `diffMode`
is set, not only the actually-diffed pair.  Second: in a plain call
(`diffMode` false, `noRecentEntry` unset) whose folder target survives
resolution — so its recent entry is fully computed by
`filterMap pathToRecent` — nothing is reported either, because the one used
window is an extension development host. -/
theorem C8_counterexample :
    C8cfg.noRecentEntry = false ∧
    (openCall {} {} C8cfg).usedWindows.map (fun w => w.isExtensionDevelopmentHost) = [false] ∧
    (openCall {} {} C8cfg).instrs.map (fun i =>
      match i with
      | .loadWindow _ c => (c.filesToOpenOrCreate.map (fun p => p.fileUri), c.filesToDiff.length)
      | _ => ([], 0)) = [([some C8fileUri], 0)] ∧
    (openCall {} {} C8cfg).recents = [] ∧
    C8devCfg.noRecentEntry = false ∧
    C8devCfg.diffMode = false ∧
    (openCall {} {} C8devCfg).usedWindows.map
      (fun w => w.isExtensionDevelopmentHost) = [true] ∧
    (getPathsToOpen {} {} (validateOpenConfig {} C8devCfg)).filterMap pathToRecent =
      [Recent.folder none C8devUri] ∧
    (openCall {} {} C8devCfg).recents = [] := by
  decide

/-- **C8** (amended).  For every `open()` call without `noRecentEntry`,
*provided the call is not in diff mode at all* (when `diffMode` is set, no
recents are recorded even for files that were not actually paired) and no
used window is an extension development host, every resolved target that
survived resolution — exactly the entries of `getPathsToOpen`, which
excludes dropped targets — is reported to the recents tracker with its
optional label (workspaces, folders and files, via `pathToRecent`); in diff
mode, and with `noRecentEntry`, nothing is reported. -/
theorem C8_recents :
    (∀ (env : Env) (st : ManagerState) (cfg : OpenConfiguration),
      cfg.noRecentEntry = false → cfg.diffMode = false →
      (∀ w ∈ (openCall env st cfg).usedWindows, w.isExtensionDevelopmentHost = false) →
      (openCall env st cfg).recents =
        (getPathsToOpen env st (validateOpenConfig st cfg)).filterMap pathToRecent) ∧
    (∀ (env : Env) (st : ManagerState) (cfg : OpenConfiguration),
      cfg.diffMode = true → (openCall env st cfg).recents = []) ∧
    (∀ (env : Env) (st : ManagerState) (cfg : OpenConfiguration),
      cfg.noRecentEntry = true → (openCall env st cfg).recents = []) := by
  refine ⟨?_, ?_, ?_⟩
  · intro env st cfg hnr hdm hdev
    obtain ⟨_, _, hvdm, hvnr, _⟩ := validateOpenConfig_fields st cfg
    rw [openCall_recents, computeRecents, hvdm, hvnr, hnr, hdm]
    have hany : (openCall env st cfg).usedWindows.any
        (fun w => w.isExtensionDevelopmentHost) = false := by
      rw [List.any_eq_false]
      intro w hw hx
      rw [hdev w hw] at hx
      cases hx
    rw [hany]
    rfl
  · intro env st cfg hdm
    obtain ⟨_, _, hvdm, _⟩ := validateOpenConfig_fields st cfg
    rw [openCall_recents, computeRecents, hvdm, hdm]
    simp
  · intro env st cfg hnr
    obtain ⟨_, _, _, hvnr, _⟩ := validateOpenConfig_fields st cfg
    rw [openCall_recents, computeRecents, hvnr, hnr]
    simp

/-- C8 witness scenario: a plain (non-diff) call opening one remote folder. -/
def C8wcfg : OpenConfiguration := { urisToOpen := some [.folderToOpen C7uri none] }

set_option maxRecDepth 8000 in
set_option maxHeartbeats 2000000 in
/-- Witness for C8: the amended recents rule at a concrete input, where the
opened folder is reported. -/
theorem C8_witness :
    (openCall {} {} C8wcfg).recents =
      (getPathsToOpen {} {} (validateOpenConfig {} C8wcfg)).filterMap pathToRecent ∧
    (openCall {} {} C8wcfg).recents = [Recent.folder none C7uri] := by
  refine ⟨C8_recents.1 {} {} C8wcfg rfl rfl ?_, by decide⟩
  decide

/- ------------------------------------------------------------------ -/
/- C10: API call with every target dropped (windows.ts, 850-887)      -/
/- ------------------------------------------------------------------ -/

/-- When every API target fails to resolve, the extraction returns no path
and counts every target as dropped. -/
theorem doExtractPathsFromAPI_all_dropped (env : Env) (cfg : OpenConfiguration)
    (uris : List WindowOpenable) (hu : cfg.urisToOpen = some uris)
    (hdrop : ∀ u ∈ uris, parseUri env u { gotoLineMode := cfg.gotoLineMode } = none) :
    doExtractPathsFromAPI env cfg = ([], uris.length) := by
  have haux : ∀ (l : List WindowOpenable) (acc : List PathToOpen × Nat),
      (∀ u ∈ l, parseUri env u { gotoLineMode := cfg.gotoLineMode } = none) →
      l.foldl (doExtractPathsFromAPIStep env cfg) acc = (acc.1, acc.2 + l.length) := by
    intro l
    induction l with
    | nil => intro acc _; simp
    | cons x xs ih =>
      intro acc hall
      rw [List.foldl_cons]
      have hx : doExtractPathsFromAPIStep env cfg acc x = (acc.1, acc.2 + 1) := by
        rw [doExtractPathsFromAPIStep, hall x (List.mem_cons_self x xs)]
      rw [hx, ih _ (fun u hu2 => hall u (List.mem_cons_of_mem x hu2))]
      rw [Prod.mk.injEq]
      refine ⟨rfl, ?_⟩
      simp [List.length_cons]
      omega
  rw [doExtractPathsFromAPI, hu, Option.getD_some, haux uris ([], 0) hdrop]
  simp

theorem coalesceFoldersIntoWorkspace_nil (env : Env) :
    coalesceFoldersIntoWorkspace env [] = [] := rfl

theorem classifyPaths_nil (cfg : OpenConfiguration) :
    classifyPaths cfg [] =
      ({ foldersToAdd := [], foldersToOpen := [], workspacesToOpen := [],
         emptyToRestore := [], emptyToOpen := 0, fileInputs := none } : ClassifiedPaths) := rfl

theorem applyDiffMode_none (d : Bool) : applyDiffMode d none = none := rfl

theorem applyWaitMarker_none (w : Option URI) : applyWaitMarker w none = none := rfl

/-- `doOpen` with nothing at all to open touches nothing: no window is used,
no instruction is emitted and the manager state is unchanged — in
particular, there is no fallback to an empty window, because the
empty-window count is zero and no file inputs are pending. -/
theorem doOpen_nothing (env : Env) (st : ManagerState) (cfg : OpenConfiguration) :
    doOpen env st cfg [] [] [] 0 none [] = (st, [], []) := by
  simp [doOpen, handleFoldersToAdd, distinctBy]

/-- The state/used-windows/instructions components of `open()`, read off the
outcome. -/
theorem openCall_outcome (env : Env) (st : ManagerState) (cfg0 : OpenConfiguration) :
    ((openCall env st cfg0).st, (openCall env st cfg0).usedWindows,
        (openCall env st cfg0).instrs) =
      (let openConfig := validateOpenConfig st cfg0
       let classified := classifyPaths openConfig (getPathsToOpen env st openConfig)
       let fileInputs2 := applyWaitMarker openConfig.waitMarkerFileURI
         (applyDiffMode openConfig.diffMode classified.fileInputs)
       let doRestore := openConfig.initialStartup &&
         openConfig.cli.extensionDevelopmentPath.isNone &&
         !openConfig.cli.disable_restore_windows
       let foldersToAdd := classified.foldersToAdd ++
         (if doRestore then
           env.folderBackupPaths.map (fun f => ({ folderUri := some f } : PathToOpen))
          else [])
       let workspacesToOpen := classified.workspacesToOpen ++
         (if doRestore then env.workspaceBackups ++ env.untitledWorkspaces else [])
       let emptyToRestore :=
         if doRestore then classified.emptyToRestore ++ env.emptyWindowBackupPaths else []
       let r := doOpen env st openConfig workspacesToOpen classified.foldersToOpen
         emptyToRestore classified.emptyToOpen fileInputs2 foldersToAdd
       (r.1, r.2.1.filterMap (getWindowById r.1), r.2.2)) := rfl

/-- **C10** (amended).  An `open()` call that supplies API targets
(`urisToOpen` non-empty), every one of which fails to resolve and is
dropped, creates no window, leaves the window registry unchanged and
returns an empty list of windows — it neither fails nor falls back to
opening an empty window — *provided the call is not the initial-startup
pass*: on a startup pass (as macOS open-file-at-launch issues, with
`urisToOpen` set and `initialStartup` true) the restore block still folds
previous-session backups in and may open windows even though every API
target was dropped (see the counterexample). -/
theorem C10_api_all_dropped (env : Env) (st : ManagerState) (cfg : OpenConfiguration)
    (uris : List WindowOpenable) (hu : cfg.urisToOpen = some uris) (hlen : 0 < uris.length)
    (hdrop : ∀ u ∈ uris, parseUri env u { gotoLineMode := cfg.gotoLineMode } = none)
    (hinit : cfg.initialStartup = false) :
    (openCall env st cfg).usedWindows = [] ∧
    (openCall env st cfg).st = st ∧
    (openCall env st cfg).instrs = [] := by
  obtain ⟨-, -, -, -, hvinit, hvu, hvg, hvcli, -⟩ := validateOpenConfig_fields st cfg
  have hapi : doExtractPathsFromAPI env (validateOpenConfig st cfg) = ([], uris.length) := by
    have hu2 : (validateOpenConfig st cfg).urisToOpen = some uris := hvu.trans hu
    have hdrop2 : ∀ u ∈ uris,
        parseUri env u { gotoLineMode := (validateOpenConfig st cfg).gotoLineMode } = none := by
      rw [hvg]; exact hdrop
    exact doExtractPathsFromAPI_all_dropped env (validateOpenConfig st cfg) uris hu2 hdrop2
  have hext : extractWindowsToOpen env st (validateOpenConfig st cfg) = ([], true) := by
    rw [extractWindowsToOpen, hvu, hu]
    simp [hlen, hapi]
  have hp : getPathsToOpen env st (validateOpenConfig st cfg) = [] := by
    rw [getPathsToOpen, hext]
    cases h : (validateOpenConfig st cfg).addMode <;>
      simp [coalesceFoldersIntoWorkspace_nil]
  have hD : ((validateOpenConfig st cfg).initialStartup &&
      (validateOpenConfig st cfg).cli.extensionDevelopmentPath.isNone &&
      !(validateOpenConfig st cfg).cli.disable_restore_windows) = false := by
    rw [hvinit, hinit]
    simp
  have h := openCall_outcome env st cfg
  simp only [hp, classifyPaths_nil, hD, applyDiffMode_none, applyWaitMarker_none,
    Bool.false_eq_true, if_false, List.nil_append, List.append_nil, doOpen_nothing,
    List.filterMap_nil] at h
  rw [Prod.mk.injEq, Prod.mk.injEq] at h
  exact ⟨h.2.1, h.1, h.2.2⟩

def C10cfg : OpenConfiguration :=
  { urisToOpen := some [.fileToOpen (URI.file "/nope") none] }

/-- Witness for C10: a single API file target that does not exist on disk is
dropped, and the call opens nothing. -/
theorem C10_witness :
    (openCall {} {} C10cfg).usedWindows = [] ∧
    (openCall {} {} C10cfg).st = ({} : ManagerState) ∧
    (openCall {} {} C10cfg).instrs = [] :=
  C10_api_all_dropped {} {} C10cfg [.fileToOpen (URI.file "/nope") none] rfl (by decide)
    (by decide) rfl

/- ------------------------------------------------------------------ -/
/- C9: addMode (windows.ts, 521-529, 397-405, 546-552)                -/
/- ------------------------------------------------------------------ -/

/-- `validateOpenConfig` keeps `addMode` exactly when the call is not the
initial startup and a last-active window exists. -/
theorem validateOpenConfig_addMode (st : ManagerState) (cfg : OpenConfiguration) :
    ((validateOpenConfig st cfg).addMode = true ↔
      (cfg.addMode = true ∧ cfg.initialStartup = false ∧
        (getLastActiveWindow st.windows).isSome = true)) := by
  rw [validateOpenConfig]
  cases ha : cfg.addMode <;> cases hi : cfg.initialStartup <;>
    cases hg : getLastActiveWindow st.windows <;> simp_all

/-- The `foldersToAdd` component of one grouping step. -/
theorem classifyPathsStep_foldersToAdd (cfg : OpenConfiguration) (acc : ClassifiedPaths)
    (path : PathToOpen) :
    (classifyPathsStep cfg acc path).foldersToAdd =
      if isFolderPathToOpen path && cfg.addMode then acc.foldersToAdd ++ [path]
      else acc.foldersToAdd := by
  rw [classifyPathsStep]
  repeat' split <;> (first | rfl | simp_all | skip)

/-- The `foldersToOpen` component of one grouping step. -/
theorem classifyPathsStep_foldersToOpen (cfg : OpenConfiguration) (acc : ClassifiedPaths)
    (path : PathToOpen) :
    (classifyPathsStep cfg acc path).foldersToOpen =
      if isFolderPathToOpen path && !cfg.addMode then acc.foldersToOpen ++ [path]
      else acc.foldersToOpen := by
  rw [classifyPathsStep]
  repeat' split <;> (first | rfl | simp_all | skip)

theorem classifyPaths_folders_aux (cfg : OpenConfiguration) :
    ∀ (paths : List PathToOpen) (acc : ClassifiedPaths),
      (paths.foldl (classifyPathsStep cfg) acc).foldersToAdd =
        acc.foldersToAdd ++ (if cfg.addMode then paths.filter isFolderPathToOpen else []) ∧
      (paths.foldl (classifyPathsStep cfg) acc).foldersToOpen =
        acc.foldersToOpen ++ (if cfg.addMode then [] else paths.filter isFolderPathToOpen) := by
  intro paths
  induction paths with
  | nil => intro acc; simp
  | cons x xs ih =>
    intro acc
    rw [List.foldl_cons]
    obtain ⟨ih1, ih2⟩ := ih (classifyPathsStep cfg acc x)
    rw [ih1, ih2, classifyPathsStep_foldersToAdd, classifyPathsStep_foldersToOpen]
    constructor
    · cases ha : cfg.addMode <;> cases hf : isFolderPathToOpen x <;>
        simp [List.filter_cons, ha, hf]
    · cases ha : cfg.addMode <;> cases hf : isFolderPathToOpen x <;>
        simp [List.filter_cons, ha, hf]

/-- With `addMode` the grouping loop turns every folder target into a
folder-to-add (and no folder-to-open); without it, into a folder-to-open
(and no folder-to-add). -/
theorem classifyPaths_addMode (cfg : OpenConfiguration) (paths : List PathToOpen) :
    (cfg.addMode = true →
      (classifyPaths cfg paths).foldersToAdd = paths.filter isFolderPathToOpen ∧
      (classifyPaths cfg paths).foldersToOpen = []) ∧
    (cfg.addMode = false →
      (classifyPaths cfg paths).foldersToAdd = [] ∧
      (classifyPaths cfg paths).foldersToOpen = paths.filter isFolderPathToOpen) := by
  obtain ⟨h1, h2⟩ := classifyPaths_folders_aux cfg paths {}
  rw [classifyPaths, h1, h2]
  constructor
  · intro ha; rw [ha]; simp
  · intro ha; rw [ha]; simp

/-- On initial startup the folders-to-add step does nothing. -/
theorem handleFoldersToAdd_initialStartup (cfg : OpenConfiguration)
    (folders : List PathToOpen) (acc : DoOpenAcc) (h : cfg.initialStartup = true) :
    handleFoldersToAdd cfg folders acc = acc := by
  rw [handleFoldersToAdd, h]
  simp

/-- With no last active window of the first folder's authority, the
folders-to-add step silently drops the folders. -/
theorem handleFoldersToAdd_noActiveWindow (cfg : OpenConfiguration)
    (folders : List PathToOpen) (acc : DoOpenAcc)
    (h : getLastActiveWindowForAuthority acc.st.windows
      (folders.headD {}).remoteAuthority = none) :
    handleFoldersToAdd cfg folders acc = acc := by
  rw [handleFoldersToAdd]
  split
  · simp only [h]
  · rfl

/-- **C9.**  For every `open()` call with `addMode` true: the validated
configuration keeps `addMode` exactly when the call is not an initial
startup and a last-active window exists — otherwise `addMode` is disabled
and the grouping loop routes every resolved folder target into the ordinary
folders-to-open list instead of folders-to-add; moreover the folders-to-add
step of `doOpen` adds nothing on initial startup or when no last-active
window (of the first folder's remote authority) exists. -/
theorem C9_add_mode :
    (∀ (st : ManagerState) (cfg : OpenConfiguration),
      ((validateOpenConfig st cfg).addMode = true ↔
        (cfg.addMode = true ∧ cfg.initialStartup = false ∧
          (getLastActiveWindow st.windows).isSome = true))) ∧
    (∀ (cfg : OpenConfiguration) (paths : List PathToOpen),
      cfg.addMode = true →
        (classifyPaths cfg paths).foldersToAdd = paths.filter isFolderPathToOpen ∧
        (classifyPaths cfg paths).foldersToOpen = []) ∧
    (∀ (cfg : OpenConfiguration) (paths : List PathToOpen),
      cfg.addMode = false →
        (classifyPaths cfg paths).foldersToAdd = [] ∧
        (classifyPaths cfg paths).foldersToOpen = paths.filter isFolderPathToOpen) ∧
    (∀ (cfg : OpenConfiguration) (folders : List PathToOpen) (acc : DoOpenAcc),
      cfg.initialStartup = true → handleFoldersToAdd cfg folders acc = acc) ∧
    (∀ (cfg : OpenConfiguration) (folders : List PathToOpen) (acc : DoOpenAcc),
      getLastActiveWindowForAuthority acc.st.windows
          (folders.headD {}).remoteAuthority = none →
        handleFoldersToAdd cfg folders acc = acc) :=
  ⟨validateOpenConfig_addMode,
   fun cfg paths => (classifyPaths_addMode cfg paths).1,
   fun cfg paths => (classifyPaths_addMode cfg paths).2,
   handleFoldersToAdd_initialStartup,
   handleFoldersToAdd_noActiveWindow⟩

def C9window : CodeWindow := { id := 11, lastFocusTime := 3 }

def C9cfg : OpenConfiguration := { addMode := true }

def C9initCfg : OpenConfiguration := { addMode := true, initialStartup := true }

def C9folderPath : PathToOpen := { folderUri := some (URI.file "/addme") }

def C9acc : DoOpenAcc := { st := {} }

/-- Witness for C9: with a live window and no startup, `addMode` survives
validation and a folder target is grouped as a folder-to-add; on initial
startup, or with no window at all, the folders-to-add step does nothing. -/
theorem C9_witness :
    (validateOpenConfig { windows := [C9window] } C9cfg).addMode = true ∧
    (classifyPaths C9cfg [C9folderPath]).foldersToAdd =
      [C9folderPath].filter isFolderPathToOpen ∧
    (classifyPaths C9cfg [C9folderPath]).foldersToOpen = [] ∧
    handleFoldersToAdd C9initCfg [C9folderPath] C9acc = C9acc ∧
    handleFoldersToAdd C9cfg [C9folderPath] C9acc = C9acc :=
  ⟨(C9_add_mode.1 { windows := [C9window] } C9cfg).mpr ⟨rfl, rfl, by decide⟩,
   (C9_add_mode.2.1 C9cfg [C9folderPath] rfl).1,
   (C9_add_mode.2.1 C9cfg [C9folderPath] rfl).2,
   C9_add_mode.2.2.2.1 C9initCfg [C9folderPath] C9acc rfl,
   C9_add_mode.2.2.2.2 C9cfg [C9folderPath] C9acc (by decide)⟩

/- ------------------------------------------------------------------ -/
/- C6: diff mode (windows.ts, 420-430)                                -/
/- ------------------------------------------------------------------ -/

/-- With exactly two collected files, `--diff` turns them into the diff pair
and empties the open/create list. -/
theorem applyDiffMode_two (fi : FileInputs) (h : fi.filesToOpenOrCreate.length = 2) :
    applyDiffMode true (some fi) =
      some { fi with filesToDiff := fi.filesToOpenOrCreate, filesToOpenOrCreate := [] } := by
  simp [applyDiffMode, h]

/-- With any number of collected files other than two, `--diff` leaves the
file inputs unchanged. -/
theorem applyDiffMode_not_two (d : Bool) (fi : FileInputs)
    (h : fi.filesToOpenOrCreate.length ≠ 2) :
    applyDiffMode d (some fi) = some fi := by
  simp [applyDiffMode, h]

def C6uriA : URI := ⟨"vscode-remote", "x", "/a.ts"⟩

def C6uriB : URI := ⟨"vscode-remote", "x", "/b.ts"⟩

/-- C6 scenario: two file targets with `--diff`. -/
def C6cfg : OpenConfiguration :=
  { diffMode := true,
    urisToOpen := some [.fileToOpen C6uriA none, .fileToOpen C6uriB none] }

set_option maxRecDepth 8000 in
set_option maxHeartbeats 2000000 in
/-- **C6.**  With exactly two collected file inputs, diff mode turns the two
files into the single diff pair (`filesToDiff`) and empties the open/create
list; with any other number of collected files the inputs pass through
unchanged; and the two-files-with-`--diff` call resolves to exactly one
window load instruction carrying the diff pair (no separate file opens). -/
theorem C6_diff_mode :
    (∀ fi : FileInputs, fi.filesToOpenOrCreate.length = 2 →
      applyDiffMode true (some fi) =
        some { fi with filesToDiff := fi.filesToOpenOrCreate,
                       filesToOpenOrCreate := [] }) ∧
    (∀ (d : Bool) (fi : FileInputs), fi.filesToOpenOrCreate.length ≠ 2 →
      applyDiffMode d (some fi) = some fi) ∧
    ((openCall {} {} C6cfg).usedWindows.length = 1 ∧
      (openCall {} {} C6cfg).instrs.map (fun i =>
        match i with
        | .loadWindow _ c => (c.filesToOpenOrCreate.length, c.filesToDiff.map (fun p => p.fileUri))
        | _ => (99, [])) = [(0, [some C6uriA, some C6uriB])]) :=
  ⟨applyDiffMode_two, applyDiffMode_not_two, by decide, by decide⟩

def C6fiTwo : FileInputs :=
  { filesToOpenOrCreate := [{ fileUri := some C6uriA }, { fileUri := some C6uriB }] }

def C6fiOne : FileInputs := { filesToOpenOrCreate := [{ fileUri := some C6uriA }] }

/-- Witness for C6: two collected files are diffed, a single collected file
passes through unchanged. -/
theorem C6_witness :
    applyDiffMode true (some C6fiTwo) =
      some { C6fiTwo with filesToDiff := C6fiTwo.filesToOpenOrCreate,
                          filesToOpenOrCreate := [] } ∧
    applyDiffMode true (some C6fiOne) = some C6fiOne :=
  ⟨C6_diff_mode.1 C6fiTwo rfl, C6_diff_mode.2.1 true C6fiOne (by decide)⟩

/- ------------------------------------------------------------------ -/
/- C1: folder coalescing (windows.ts, 829-848)                        -/
/- ------------------------------------------------------------------ -/

/-- On a CLI/API call (`isCommandLineOrAPICall` true) without `addMode`,
`getPathsToOpen` applies the folder-coalescing stage to the extracted
targets. -/
theorem getPathsToOpen_cli_api (env : Env) (st : ManagerState) (cfg : OpenConfiguration)
    (ws : List PathToOpen) (hext : extractWindowsToOpen env st cfg = (ws, true))
    (hadd : cfg.addMode = false) :
    getPathsToOpen env st cfg = coalesceFoldersIntoWorkspace env ws := by
  rw [getPathsToOpen, hext, hadd]
  simp

/-- With more than one folder target, all of the same remote authority, the
coalescing stage removes every folder target and appends one ad-hoc
untitled workspace built from exactly those folders. -/
theorem coalesceFoldersIntoWorkspace_spec (env : Env) (paths : List PathToOpen)
    (hlen : 1 < (paths.filter (fun p => p.folderUri.isSome)).length)
    (hauth : ((paths.filter (fun p => p.folderUri.isSome)).all
      (fun f => f.remoteAuthority ==
        ((paths.filter (fun p => p.folderUri.isSome)).headD {}).remoteAuthority)) = true) :
    coalesceFoldersIntoWorkspace env paths =
      paths.filter (fun p => p.folderUri.isNone) ++
        [({ workspace := some (env.createUntitledWorkspace
              ((paths.filter (fun p => p.folderUri.isSome)).filterMap (fun p => p.folderUri))),
            remoteAuthority :=
              ((paths.filter (fun p => p.folderUri.isSome)).headD {}).remoteAuthority } :
          PathToOpen)] := by
  rw [coalesceFoldersIntoWorkspace]
  simp only [hlen, if_true, hauth, List.filter_append]
  simp

/-- After coalescing, no folder target remains in the list. -/
theorem coalesceFoldersIntoWorkspace_no_folders (env : Env) (paths : List PathToOpen)
    (hlen : 1 < (paths.filter (fun p => p.folderUri.isSome)).length)
    (hauth : ((paths.filter (fun p => p.folderUri.isSome)).all
      (fun f => f.remoteAuthority ==
        ((paths.filter (fun p => p.folderUri.isSome)).headD {}).remoteAuthority)) = true) :
    (coalesceFoldersIntoWorkspace env paths).filter (fun p => p.folderUri.isSome) = [] := by
  rw [coalesceFoldersIntoWorkspace_spec env paths hlen hauth, List.filter_append]
  have hnone : ∀ (l : List PathToOpen),
      (l.filter (fun p => p.folderUri.isNone)).filter (fun p => p.folderUri.isSome) = [] := by
    intro l
    induction l with
    | nil => rfl
    | cons x xs ih => cases hx : x.folderUri <;> simp [List.filter_cons, hx, ih]
  rw [hnone]
  simp

/-- C1 scenario: three distinct local folders opened from one CLI
invocation; `createUntitledWorkspace` records the folder paths it receives
in the synthesized workspace id. -/
def C1env : Env :=
  { stat := fun _ => some { isFile := false, isDirectory := true },
    createUntitledWorkspace := fun folders =>
      { id := String.mk (folders.foldl (fun (a : List Char) u => a ++ u.path.data) []),
        configPath := URI.file "/untitled.code-workspace" } }

def C1cfg : OpenConfiguration := { cli := { posArgs := ["/a", "/b", "/c"] } }

def C1folderEntry (p : String) : PathToOpen :=
  { folderUri := some (URI.file p), remoteAuthority := none, existsOnDisk := some true }

def C1ws : List PathToOpen := [C1folderEntry "/a", C1folderEntry "/b", C1folderEntry "/c"]

set_option maxRecDepth 8000 in
set_option maxHeartbeats 2000000 in
/-- **C1.**  For every CLI/API `open()` call (explicit targets supplied,
`isCommandLineOrAPICall` flag set) with `addMode` false, `getPathsToOpen`
runs the coalescing stage; whenever more than one target resolves to a
folder and all folder targets carry the same remote authority, the stage
replaces all folder targets by a single ad-hoc untitled workspace built
from exactly those folders (no folder target remains); and the concrete
three-local-folders CLI call opens exactly one window, whose load
instruction carries the synthesized workspace containing all three
folders. -/
theorem C1_folder_coalescing :
    (∀ (env : Env) (st : ManagerState) (cfg : OpenConfiguration) (ws : List PathToOpen),
      extractWindowsToOpen env st cfg = (ws, true) → cfg.addMode = false →
      getPathsToOpen env st cfg = coalesceFoldersIntoWorkspace env ws) ∧
    (∀ (env : Env) (paths : List PathToOpen),
      1 < (paths.filter (fun p => p.folderUri.isSome)).length →
      ((paths.filter (fun p => p.folderUri.isSome)).all
        (fun f => f.remoteAuthority ==
          ((paths.filter (fun p => p.folderUri.isSome)).headD {}).remoteAuthority)) = true →
      coalesceFoldersIntoWorkspace env paths =
        paths.filter (fun p => p.folderUri.isNone) ++
          [({ workspace := some (env.createUntitledWorkspace
                ((paths.filter (fun p => p.folderUri.isSome)).filterMap
                  (fun p => p.folderUri))),
              remoteAuthority :=
                ((paths.filter (fun p => p.folderUri.isSome)).headD {}).remoteAuthority } :
            PathToOpen)] ∧
        (coalesceFoldersIntoWorkspace env paths).filter (fun p => p.folderUri.isSome) = []) ∧
    ((openCall C1env {} C1cfg).usedWindows.length = 1 ∧
      (openCall C1env {} C1cfg).instrs.map (fun i =>
        match i with
        | .loadWindow _ c => c.workspace.map (fun w => w.id)
        | _ => none) = [some "/a/b/c"]) :=
  ⟨getPathsToOpen_cli_api,
   fun env paths hlen hauth =>
     ⟨coalesceFoldersIntoWorkspace_spec env paths hlen hauth,
      coalesceFoldersIntoWorkspace_no_folders env paths hlen hauth⟩,
   by decide, by decide⟩

set_option maxRecDepth 8000 in
set_option maxHeartbeats 2000000 in
/-- Witness for C1: the three-folder CLI extraction feeds the coalescing
stage, which replaces the three folder targets by one untitled workspace. -/
theorem C1_witness :
    getPathsToOpen C1env {} C1cfg = coalesceFoldersIntoWorkspace C1env C1ws ∧
    (coalesceFoldersIntoWorkspace C1env C1ws =
      C1ws.filter (fun p => p.folderUri.isNone) ++
        [({ workspace := some (C1env.createUntitledWorkspace
              ((C1ws.filter (fun p => p.folderUri.isSome)).filterMap (fun p => p.folderUri))),
            remoteAuthority :=
              ((C1ws.filter (fun p => p.folderUri.isSome)).headD {}).remoteAuthority } :
          PathToOpen)] ∧
      (coalesceFoldersIntoWorkspace C1env C1ws).filter (fun p => p.folderUri.isSome) = []) :=
  ⟨C1_folder_coalescing.1 C1env {} C1cfg C1ws (by decide) rfl,
   C1_folder_coalescing.2.1 C1env C1ws (by decide) (by decide)⟩

/- ------------------------------------------------------------------ -/
/- C10 counterexample: the startup pass still restores                -/
/- ------------------------------------------------------------------ -/

/-- C10 scenario for the counterexample: an initial-startup call (as the
macOS open-file-at-launch path issues, with `urisToOpen` set and
`initialStartup` true) whose single API target is dropped, while the backup
registry holds one workspace backup. -/
def C10xEnv : Env :=
  { workspaceBackups :=
      [{ workspace := some ⟨"wsb", ⟨"file", "", "/wsb.code-workspace"⟩⟩ }] }

def C10xCfg : OpenConfiguration :=
  { urisToOpen := some [.fileToOpen (URI.file "/nope") none],
    initialStartup := true }

set_option maxRecDepth 8000 in
set_option maxHeartbeats 2000000 in
/-- **C10, counterexample.**  An `open()` call that supplies API targets,
every one of which fails to resolve and is dropped, but that is an
initial-startup pass with a workspace backup registered: the restore block
(windows.ts, lines 432-448) still folds the backup in, so the call opens a
window and changes the window registry — the claim's conclusion (no window,
registry unchanged, empty result) fails. -/
theorem C10_counterexample :
    C10xCfg.urisToOpen = some [.fileToOpen (URI.file "/nope") none] ∧
    (doExtractPathsFromAPI C10xEnv (validateOpenConfig {} C10xCfg)).1 = [] ∧
    (doExtractPathsFromAPI C10xEnv (validateOpenConfig {} C10xCfg)).2 = 1 ∧
    (openCall C10xEnv {} C10xCfg).usedWindows.length = 1 ∧
    (openCall C10xEnv {} C10xCfg).st.windows.length = 1 ∧
    (openCall C10xEnv {} C10xCfg).instrs ≠ [] := by
  decide
